import Mathlib

/-
Verification of the terminal core (libterminal Screen and friends).

The data model and the Screen operations below are translated from
src/src/terminal/Screen.cpp.  Types and functions that live in headers or
translation units that are not part of the source snapshot (Screen.h,
Grid.cpp, Modes, InputGenerator.cpp, the Unicode library) are modelled from
the specification; every such definition carries a doc comment starting with
"Modelled from the spec:".  Coordinates are 1-based and use Int, matching
the int arithmetic of the source.
-/

namespace Contour

/-! Basic data model (spec section 3). -/

/-- Color of a cell attribute: tagged variant Default, Indexed, Bright, RGB,
Undefined (spec section 3, type Color in the missing header). -/
inductive Color where
  | default
  | indexed (n : Int)
  | bright (n : Int)
  | rgb (r g b : Int)
  | undefined
deriving DecidableEq, Repr

/-- Style flags of a graphics rendition (CellFlags in the source). -/
inductive CellFlag where
  | bold
  | faint
  | italic
  | underline
  | blinking
  | inverse
  | hidden
  | crossedOut
  | doublyUnderlined
  | curlyUnderlined
  | dottedUnderline
  | dashedUnderline
  | framed
  | overline
deriving DecidableEq, Repr

/-- Graphics attributes of the cursor and of cells: colors plus a set of
style flags.  The C++ bitmask is modelled as a duplicate-free list. -/
structure GraphicsAttributes where
  foregroundColor : Color := Color.default
  backgroundColor : Color := Color.default
  underlineColor : Color := Color.default
  styles : List CellFlag := []
deriving DecidableEq, Repr

/-- Insert a style flag (the C++ or-assignment on the bitmask). -/
def addStyle (l : List CellFlag) (f : CellFlag) : List CellFlag :=
  if f ∈ l then l else l ++ [f]

/-- Remove style flags (the C++ and-not-assignment on the bitmask). -/
def removeStyles (l : List CellFlag) (fs : List CellFlag) : List CellFlag :=
  l.filter (fun f => f ∉ fs)

/-- One screen cell: codepoints (base plus combining), display width,
graphics attributes and an optional hyperlink reference. -/
structure Cell where
  codepoints : List Nat := []
  width : Int := 1
  attrs : GraphicsAttributes := {}
  hyperlink : Option String := none
deriving DecidableEq, Repr

/-- Blank cell carrying given attributes (C++ Cell with empty codepoints,
as produced by Cell constructor calls with the current rendition). -/
def blankCell (a : GraphicsAttributes) : Cell :=
  { codepoints := [], width := 1, attrs := a }

/-- One grid line: fixed-width cell sequence plus the wrapped, wrappable and
marked flags (spec section 3, type Line). -/
structure Line where
  cells : List Cell
  wrapped : Bool := false
  wrappable : Bool := true
  marked : Bool := false
deriving DecidableEq, Repr

/-- Blank line of a given column count, all cells carrying the given
attributes. -/
def blankLine (columns : Int) (a : GraphicsAttributes) (wrappable : Bool) : Line :=
  { cells := List.replicate columns.toNat (blankCell a), wrappable := wrappable }

/-- Fresh line of default cells, as in a freshly constructed Grid. -/
def freshLine (columns : Int) (wrappable : Bool) : Line :=
  { cells := List.replicate columns.toNat {}, wrappable := wrappable }

/-- Grid: history prefix plus main page of lines, with a column count, a
bounded history capacity (none means unbounded) and the reflow flag
(spec section 3, type Grid; Grid.cpp is not part of the snapshot). -/
structure Grid where
  columns : Int
  history : List Line := []
  page : List Line
  maxHistory : Option Int
  reflowEnabled : Bool
deriving DecidableEq, Repr

/-- Fresh grid of the given size, as built by the Grid constructor used in
emptyGrids in Screen.cpp. -/
def emptyGrid (w h : Int) (reflowEnabled : Bool) (maxHistory : Option Int) : Grid :=
  { columns := w
    history := []
    page := List.replicate h.toNat (freshLine w reflowEnabled)
    maxHistory := maxHistory
    reflowEnabled := reflowEnabled }

/-- Margin rectangle: vertical and horizontal ranges, inclusive, in page
coordinates (type Margin of the missing header, used throughout
Screen.cpp). -/
structure Margin where
  vFrom : Int
  vTo : Int
  hFrom : Int
  hTo : Int
deriving DecidableEq, Repr

/-- Length of the horizontal margin range (Margin::Range::length). -/
def Margin.hLength (m : Margin) : Int := m.hTo - m.hFrom + 1

/-! Modes (spec section 4.5).  The Modes class itself is not part of the
snapshot; it is modelled from the spec: two bitsets (ANSI, DEC-private)
plus a per-mode save stack.  Bitsets are duplicate-free lists of the mode
numbers that are enabled. -/

/-- Modelled from the spec: the Modes component, holding the ANSI mode
bitset, the DEC private mode bitset and the XTSAVE/XTRESTORE stack keyed
by DEC mode number. -/
structure Modes where
  ansiSet : List Int := []
  decSet : List Int := []
  saveStacks : List (Int × List Bool) := []
deriving DecidableEq, Repr

/-- Modelled from the spec: Modes::enabled for DEC private modes. -/
def Modes.decEnabled (m : Modes) (num : Int) : Bool := num ∈ m.decSet

/-- Modelled from the spec: Modes::enabled for ANSI modes. -/
def Modes.ansiEnabled (m : Modes) (num : Int) : Bool := num ∈ m.ansiSet

/-- Modelled from the spec: Modes::set on the DEC bitset. -/
def Modes.setDec (m : Modes) (num : Int) (enable : Bool) : Modes :=
  if enable then
    { m with decSet := if num ∈ m.decSet then m.decSet else num :: m.decSet }
  else
    { m with decSet := m.decSet.filter (fun k => k ≠ num) }

/-- Modelled from the spec: Modes::set on the ANSI bitset. -/
def Modes.setAnsi (m : Modes) (num : Int) (enable : Bool) : Modes :=
  if enable then
    { m with ansiSet := if num ∈ m.ansiSet then m.ansiSet else num :: m.ansiSet }
  else
    { m with ansiSet := m.ansiSet.filter (fun k => k ≠ num) }

/-- Stack entry of a mode (empty when none was ever saved). -/
def Modes.stackOf (m : Modes) (num : Int) : List Bool :=
  (m.saveStacks.lookup num).getD []

/-- Replace the stack entry of a mode. -/
def Modes.setStack (m : Modes) (num : Int) (v : List Bool) : Modes :=
  if (m.saveStacks.lookup num).isSome then
    { m with saveStacks := m.saveStacks.map (fun p => if p.1 = num then (num, v) else p) }
  else
    { m with saveStacks := (num, v) :: m.saveStacks }

/-- Modelled from the spec: Modes::save pushes the current value of each
listed DEC mode onto its per-mode stack. -/
def Modes.save (m : Modes) (nums : List Int) : Modes :=
  nums.foldl (fun acc num => acc.setStack num (acc.decEnabled num :: acc.stackOf num)) m

/-- Modelled from the spec: Modes::restore pops the saved value of each
listed DEC mode and applies it to the bitset. -/
def Modes.restore (m : Modes) (nums : List Int) : Modes :=
  nums.foldl
    (fun acc num =>
      match acc.stackOf num with
      | [] => acc
      | b :: rest => (acc.setDec num b).setStack num rest)
    m

/-! Mode enumerations.  The DECMode and AnsiMode enums and the functions
toDECModeNum, toAnsiModeNum, isValidDECMode, isValidAnsiMode live in the
missing header; the constructor set is taken from the switch statements in
Screen.cpp and the numbering from the spec (DECSET 1000 is
MouseProtocolNormalTracking) and the standard DEC/xterm assignments. -/

/-- DEC private modes dispatched by Screen::setMode in Screen.cpp. -/
inductive DECMode where
  | useApplicationCursorKeys
  | designateCharsetUSASCII
  | columns132
  | smoothScroll
  | reverseVideo
  | origin
  | autoWrap
  | printerExtend
  | mouseProtocolX10
  | showToolbar
  | blinkingCursor
  | visibleCursor
  | showScrollbar
  | allowColumns80to132
  | debugLogging
  | useAlternateScreen
  | leftRightMargin
  | sixelScrolling
  | mouseProtocolNormalTracking
  | mouseProtocolHighlightTracking
  | mouseProtocolButtonTracking
  | mouseProtocolAnyEventTracking
  | focusTracking
  | mouseExtended
  | mouseSGR
  | mouseAlternateScroll
  | mouseURXVT
  | saveCursor
  | extendedAltScreen
  | bracketedPaste
  | usePrivateColorRegisters
  | batchedRendering
  | textReflow
deriving DecidableEq, Repr

/-- Modelled from the spec: toDECModeNum, the VT mode number of each DEC
private mode. -/
def toDECModeNum (m : DECMode) : Int :=
  match m with
  | .useApplicationCursorKeys => 1
  | .designateCharsetUSASCII => 2
  | .columns132 => 3
  | .smoothScroll => 4
  | .reverseVideo => 5
  | .origin => 6
  | .autoWrap => 7
  | .printerExtend => 19
  | .mouseProtocolX10 => 9
  | .showToolbar => 10
  | .blinkingCursor => 12
  | .visibleCursor => 25
  | .showScrollbar => 30
  | .allowColumns80to132 => 40
  | .debugLogging => 46
  | .useAlternateScreen => 47
  | .leftRightMargin => 69
  | .sixelScrolling => 80
  | .mouseProtocolNormalTracking => 1000
  | .mouseProtocolHighlightTracking => 1001
  | .mouseProtocolButtonTracking => 1002
  | .mouseProtocolAnyEventTracking => 1003
  | .focusTracking => 1004
  | .mouseExtended => 1005
  | .mouseSGR => 1006
  | .mouseAlternateScroll => 1007
  | .mouseURXVT => 1015
  | .saveCursor => 1048
  | .extendedAltScreen => 1049
  | .bracketedPaste => 2004
  | .usePrivateColorRegisters => 1070
  | .batchedRendering => 2026
  | .textReflow => 2027

/-- Modelled from the spec: the set of recognized DEC private mode numbers
(isValidDECMode in the missing header). -/
def validDECModeNums : List Int :=
  [1, 2, 3, 4, 5, 6, 7, 19, 9, 10, 12, 25, 30, 40, 46, 47, 69, 80,
   1000, 1001, 1002, 1003, 1004, 1005, 1006, 1007, 1015, 1048, 1049,
   2004, 1070, 2026, 2027]

/-- Modelled from the spec: isValidDECMode. -/
def isValidDECMode (num : Int) : Bool := num ∈ validDECModeNums

/-- ANSI modes used by Screen.cpp. -/
inductive AnsiMode where
  | keyboardAction
  | insert
  | sendReceive
  | automaticNewLine
deriving DecidableEq, Repr

/-- Modelled from the spec: toAnsiModeNum. -/
def toAnsiModeNum (m : AnsiMode) : Int :=
  match m with
  | .keyboardAction => 2
  | .insert => 4
  | .sendReceive => 12
  | .automaticNewLine => 20

/-- Modelled from the spec: isValidAnsiMode. -/
def isValidAnsiMode (num : Int) : Bool := num ∈ ([2, 4, 12, 20] : List Int)

/-! Reflow model (spec sections 3 and 4.3).  Grid.cpp is not part of the
snapshot, so line reflow is modelled from the spec: wrappable lines are
concatenated with their wrapped successors and re-split at the new width,
preserving marks on the first sub-line.  A FlowLine carries the logical
content of one stored line (trailing blank padding left implicit), its
wrapped flag and its marked flag. -/

/-- Modelled from the spec: one line in the reflow computation, with the
content elements (codepoints, or whole cells), the wrapped flag and the
marked flag. -/
structure FlowLine (α : Type) where
  text : List α
  wrapped : Bool := false
  marked : Bool := false
deriving DecidableEq, Repr

/-- Split a list into chunks of w + 1 elements each (the last chunk may be
shorter); every chunk is nonempty. -/
def chunksPos (w : Nat) : List α → List (List α)
  | [] => []
  | a :: rest => (a :: rest.take w) :: chunksPos w (rest.drop w)
termination_by l => l.length
decreasing_by
  simp only [List.length_drop, List.length_cons]
  omega

/-- Modelled from the spec: split one logical paragraph at a given column
width; an empty paragraph still occupies one blank line. -/
def splitParagraph (w : Nat) (p : List α) : List (List α) :=
  if p.isEmpty then [[]] else chunksPos (w - 1) p

/-- Modelled from the spec: the stored lines of one paragraph after a
re-split: the first sub-line keeps the mark and is not wrapped, every
further sub-line is flagged wrapped. -/
def paragraphLines (w : Nat) (mk : Bool) (p : List α) : List (FlowLine α) :=
  match splitParagraph w p with
  | [] => []
  | t :: ts => { text := t, wrapped := false, marked := mk } ::
               ts.map (fun t2 => { text := t2, wrapped := true, marked := false })

/-- Accumulating helper joining one wrap-run. -/
def joinRunsAux (cur : List α × Bool) : List (FlowLine α) → List (List α × Bool)
  | [] => [cur]
  | l :: rest =>
      if l.wrapped then joinRunsAux (cur.1 ++ l.text, cur.2 || l.marked) rest
      else cur :: joinRunsAux (l.text, l.marked) rest

/-- Modelled from the spec: concatenate each wrap-run back into its logical
paragraph, keeping the mark of the first line of the run. -/
def joinRuns : List (FlowLine α) → List (List α × Bool)
  | [] => []
  | l :: rest => joinRunsAux (l.text, l.marked) rest

/-- Stored lines of a sequence of marked paragraphs at a given width. -/
def linesOfParagraphs (w : Nat) (ps : List (List α × Bool)) : List (FlowLine α) :=
  ps.flatMap (fun p => paragraphLines w p.2 p.1)

/-- Modelled from the spec: reflow a stored line sequence to a new column
width (join all wrap-runs, then re-split each paragraph). -/
def reflowLines (w : Nat) (lines : List (FlowLine α)) : List (FlowLine α) :=
  linesOfParagraphs w (joinRuns lines)

/-- Character sequence of a stored line sequence: the concatenation of line
text over wrap-runs. -/
def flowText (lines : List (FlowLine α)) : List (List α) :=
  (joinRuns lines).map Prod.fst

/-- Chunking a list and flattening the chunks gives back the list
(auxiliary form with a length bound as fuel). -/
theorem chunksPos_join_aux (w : Nat) :
    ∀ (n : Nat) (l : List α), l.length ≤ n → (chunksPos w l).join = l
  | _, [], _ => by simp [chunksPos]
  | 0, a :: rest, h => by simp at h
  | Nat.succ n, a :: rest, h => by
      rw [chunksPos]
      have hr : (rest.drop w).length ≤ n := by
        simp only [List.length_drop]
        simp only [List.length_cons] at h
        omega
      simp [chunksPos_join_aux w n (rest.drop w) hr]

/-- Chunking a list and flattening the chunks gives back the list. -/
theorem chunksPos_join (w : Nat) (l : List α) : (chunksPos w l).join = l :=
  chunksPos_join_aux w l.length l le_rfl

/-- Splitting a paragraph and flattening gives back the paragraph. -/
theorem splitParagraph_join (w : Nat) (p : List α) :
    (splitParagraph w p).join = p := by
  by_cases h : p.isEmpty
  · simp [splitParagraph, h]
    simpa [List.isEmpty_iff] using h
  · simp [splitParagraph, h, chunksPos_join]

/-- A split paragraph has at least one sub-line. -/
theorem splitParagraph_ne_nil (w : Nat) (p : List α) :
    splitParagraph w p ≠ [] := by
  by_cases h : p.isEmpty
  · simp [splitParagraph, h]
  · cases p with
    | nil => simp at h
    | cons a rest => simp [splitParagraph, chunksPos]

/-- Joining past a block of wrapped continuation lines accumulates their
text. -/
theorem joinRunsAux_wrapped (cur : List α × Bool) (ts : List (List α))
    (rest : List (FlowLine α)) :
    joinRunsAux cur
      (ts.map (fun t2 => { text := t2, wrapped := true, marked := false }) ++ rest)
      = joinRunsAux (cur.1 ++ ts.join, cur.2) rest := by
  induction ts generalizing cur with
  | nil => simp
  | cons t ts ih => simp [joinRunsAux, ih, List.append_assoc]

/-- The first stored line of a paragraph sequence is never flagged
wrapped, so joining from an accumulator emits the accumulator. -/
theorem joinRunsAux_linesOfParagraphs (w : Nat) (cur : List α × Bool)
    (ps : List (List α × Bool)) :
    joinRunsAux cur (linesOfParagraphs w ps)
      = cur :: joinRuns (linesOfParagraphs w ps) := by
  cases ps with
  | nil => simp [linesOfParagraphs, joinRunsAux, joinRuns]
  | cons p ps =>
      have hne := splitParagraph_ne_nil w p.1
      cases hsp : splitParagraph w p.1 with
      | nil => exact absurd hsp hne
      | cons t ts =>
          simp only [linesOfParagraphs, List.flatMap_cons, paragraphLines, hsp,
            List.cons_append, joinRunsAux, joinRuns]
          rfl

/-- Joining the stored lines of a paragraph sequence recovers exactly the
paragraphs with their marks. -/
theorem joinRuns_linesOfParagraphs (w : Nat) (ps : List (List α × Bool)) :
    joinRuns (linesOfParagraphs w ps) = ps := by
  induction ps with
  | nil => simp [linesOfParagraphs, joinRuns]
  | cons p ps ih =>
      have hne := splitParagraph_ne_nil w p.1
      cases hsp : splitParagraph w p.1 with
      | nil => exact absurd hsp hne
      | cons t ts =>
          have hjoin : t ++ ts.join = p.1 := by
            have := splitParagraph_join w p.1
            rw [hsp] at this
            simpa using this
          simp only [linesOfParagraphs, List.flatMap_cons, paragraphLines, hsp,
            List.cons_append, joinRuns]
          rw [joinRunsAux_wrapped (t, p.2) ts, hjoin]
          have h2 := joinRunsAux_linesOfParagraphs w (p.1, p.2) ps
          simp only [linesOfParagraphs, paragraphLines] at h2 ih
          simp [h2, ih]

/-- Reflowing the stored lines of a paragraph sequence to any width yields
the stored form of the same paragraphs at that width. -/
theorem reflowLines_linesOfParagraphs (w w2 : Nat) (ps : List (List α × Bool)) :
    reflowLines w2 (linesOfParagraphs w ps) = linesOfParagraphs w2 ps := by
  simp [reflowLines, joinRuns_linesOfParagraphs]

/-! Grid operations.  Grid.cpp is not part of the snapshot; scroll and
resize are modelled from the spec (section 4.3). -/

/-- Modelled from the spec: bounding the history at max_history_lines by
dropping the oldest lines. -/
def truncHistory (cap : Option Int) (h : List Line) : List Line :=
  match cap with
  | none => h
  | some k => h.drop (h.length - k.toNat)

/-- Modelled from the spec: Grid::scrollUp copies the lines of the margin
rectangle up by n, fills the freed bottom lines with blank cells carrying
the given rendition, and, iff the margin equals the full page, pushes the
displaced top lines into the history (bounded by max_history_lines; the
alternate grid has capacity zero, so it never accumulates history). -/
def Grid.scrollUp (g : Grid) (n : Int) (sgr : GraphicsAttributes) (m : Margin) : Grid :=
  let pageLen : Int := g.page.length
  if m.vFrom = 1 ∧ m.vTo = pageLen ∧ m.hFrom = 1 ∧ m.hTo = g.columns then
    let k := (min n pageLen).toNat
    { g with
      history := truncHistory g.maxHistory (g.history ++ g.page.take k)
      page := g.page.drop k ++ List.replicate k (blankLine g.columns sgr g.reflowEnabled) }
  else
    { g with
      page := g.page.mapIdx (fun i line =>
        let r : Int := (i : Int) + 1
        if m.vFrom ≤ r ∧ r ≤ m.vTo then
          let newCells :=
            if r ≤ m.vTo - n then
              ((g.page.getD (r + n - 1).toNat line).cells)
            else List.replicate g.columns.toNat (blankCell sgr)
          { line with cells := line.cells.mapIdx (fun j c =>
              if m.hFrom ≤ (j : Int) + 1 ∧ (j : Int) + 1 ≤ m.hTo
              then newCells.getD j c else c) }
        else line) }

/-- Trailing blank padding of a stored line, removed before reflow. -/
def trimTrailingBlanks (cs : List Cell) : List Cell :=
  (cs.reverse.dropWhile (fun c => c.codepoints.isEmpty)).reverse

/-- Logical flow view of a stored line. -/
def Line.toFlow (l : Line) : FlowLine Cell :=
  { text := trimTrailingBlanks l.cells, wrapped := l.wrapped, marked := l.marked }

/-- Stored line of a flow line at a given width: pad with blank cells or
truncate to the column count. -/
def flowToLine (w : Int) (wrappable : Bool) (f : FlowLine Cell) : Line :=
  { cells := f.text.take w.toNat ++ List.replicate (w.toNat - f.text.length) (blankCell {})
    wrapped := f.wrapped
    wrappable := wrappable
    marked := f.marked }

/-- Modelled from the spec: Grid::resize.  When reflow is enabled and the
column count changes, wrap-runs are joined and re-split at the new width;
otherwise lines are padded or truncated by width.  The page grows via
blank lines at the bottom or via history promotion, and shrinks by moving
top lines into history (dropped on the alternate grid through its zero
capacity).  The carried cursor is clamped into the new page. -/
def Grid.resize (g : Grid) (newW newH : Int) (cursor : Int × Int) : Grid × (Int × Int) :=
  let allLines := g.history ++ g.page
  let flows := allLines.map Line.toFlow
  let flows2 :=
    if g.reflowEnabled ∧ newW ≠ g.columns then reflowLines newW.toNat flows else flows
  let lines2 := flows2.map (flowToLine newW g.reflowEnabled)
  let hN := newH.toNat
  let g2 :=
    if hN ≤ lines2.length then
      { g with columns := newW
               history := truncHistory g.maxHistory (lines2.take (lines2.length - hN))
               page := lines2.drop (lines2.length - hN) }
    else
      { g with columns := newW
               history := []
               page := lines2 ++ List.replicate (hN - lines2.length) (freshLine newW g.reflowEnabled) }
  (g2, (max 1 (min cursor.1 newH), max 1 (min cursor.2 newW)))

/-! Screen state.  All fields correspond to members of class Screen used by
Screen.cpp; members that live only in the missing header (charset tables,
the image pool, the sequencer scratch state) are left out, except for the
instruction counter, which writeText reads. -/

/-- Screen buffer type (primary or alternate). -/
inductive ScreenType where
  | main
  | alternate
deriving DecidableEq, Repr

/-- Modelled from the spec: the color palette contents are opaque to the
claims; only the identity of the palette value is tracked. -/
structure ColorPalette where
  seed : Int := 0
deriving DecidableEq, Repr

/-- Cursor state: 1-based position, the cached auto-wrap, origin-mode and
visibility flags, and the current graphics rendition. -/
structure Cursor where
  row : Int := 1
  col : Int := 1
  autoWrap : Bool := false
  originMode : Bool := false
  visible : Bool := true
  graphicsRendition : GraphicsAttributes := {}
deriving DecidableEq, Repr

/-- The Screen state (members of class Screen). -/
structure Screen where
  width : Int
  height : Int
  modes : Modes := {}
  cursor : Cursor := {}
  savedCursor : Cursor := {}
  savedPrimaryCursor : Cursor := {}
  wrapPending : Int := 0
  margin : Margin
  primaryGrid : Grid
  alternateGrid : Grid
  screenType : ScreenType := ScreenType.main
  tabs : List Int := []
  tabWidth : Int := 8
  colorPalette : ColorPalette := {}
  defaultColorPalette : ColorPalette := {}
  currentHyperlink : Option String := none
  hyperlinkRegistry : List (String × String) := []
  windowTitle : String := ""
  savedWindowTitles : List String := []
  lastCursorRow : Int := 1
  lastCursorCol : Int := 1
  lastColRow : Int := 1
  lastColCol : Int := 1
  instructionCounter : Nat := 0
  replyData : String := ""
deriving DecidableEq, Repr

/-- Modelled from the spec: Screen::isPrimaryScreen. -/
def Screen.isPrimaryScreen (s : Screen) : Bool := s.screenType = ScreenType.main

/-- Modelled from the spec: Screen::isAlternateScreen. -/
def Screen.isAlternateScreen (s : Screen) : Bool := s.screenType = ScreenType.alternate

/-- Modelled from the spec: Screen::grid, the active grid. -/
def Screen.activeGrid (s : Screen) : Grid :=
  if s.screenType = ScreenType.main then s.primaryGrid else s.alternateGrid

/-- Store back the active grid. -/
def Screen.setActiveGrid (s : Screen) (g : Grid) : Screen :=
  if s.screenType = ScreenType.main then { s with primaryGrid := g }
  else { s with alternateGrid := g }

/-- Modelled from the spec: Screen::backgroundGrid, the inactive grid. -/
def Screen.backgroundGrid (s : Screen) : Grid :=
  if s.screenType = ScreenType.main then s.alternateGrid else s.primaryGrid

/-- Store back the background grid. -/
def Screen.setBackgroundGrid (s : Screen) (g : Grid) : Screen :=
  if s.screenType = ScreenType.main then { s with alternateGrid := g }
  else { s with primaryGrid := g }

/-- Modelled from the spec: Screen::isModeEnabled for DEC private modes
(a bitset lookup). -/
def Screen.isModeEnabled (s : Screen) (m : DECMode) : Bool :=
  s.modes.decEnabled (toDECModeNum m)

/-- Modelled from the spec: Screen::isModeEnabled for ANSI modes. -/
def Screen.isAnsiModeEnabled (s : Screen) (m : AnsiMode) : Bool :=
  s.modes.ansiEnabled (toAnsiModeNum m)

/-- Clamp a value into an inclusive range. -/
def clampInt (v lo hi : Int) : Int := max lo (min v hi)

/-- Modelled from the spec: Screen::clampToScreen, clamping a coordinate
into the page. -/
def Screen.clampToScreen (s : Screen) (p : Int × Int) : Int × Int :=
  (clampInt p.1 1 s.height, clampInt p.2 1 s.width)

/-- Modelled from the spec: Screen::toRealCoordinate, translating an
origin-relative coordinate into a page coordinate when origin mode is
on. -/
def Screen.toRealCoordinate (s : Screen) (p : Int × Int) : Int × Int :=
  if s.cursor.originMode then (p.1 + s.margin.vFrom - 1, p.2 + s.margin.hFrom - 1) else p

/-- Modelled from the spec: Screen::cursorPosition, the logical
(origin-relative) cursor position. -/
def Screen.cursorPosition (s : Screen) : Int × Int :=
  if s.cursor.originMode then
    (s.cursor.row - s.margin.vFrom + 1, s.cursor.col - s.margin.hFrom + 1)
  else (s.cursor.row, s.cursor.col)

/-- Modelled from the spec: Screen::realCursorPosition, the page
coordinate of the cursor. -/
def Screen.realCursorPosition (s : Screen) : Int × Int := (s.cursor.row, s.cursor.col)

/-- Modelled from the spec: Screen::isCursorInsideMargins. -/
def Screen.isCursorInsideMargins (s : Screen) : Bool :=
  decide (s.margin.vFrom ≤ s.cursor.row ∧ s.cursor.row ≤ s.margin.vTo ∧
          s.margin.hFrom ≤ s.cursor.col ∧ s.cursor.col ≤ s.margin.hTo)

/-- Screen::moveCursorTo: reset wrap-pending and set the clamped real
coordinate of the given (possibly origin-relative) position. -/
def Screen.moveCursorTo (s : Screen) (r c : Int) : Screen :=
  let pos := s.clampToScreen (s.toRealCoordinate (r, c))
  { s with wrapPending := 0, cursor := { s.cursor with row := pos.1, col := pos.2 } }

/-- Screen::scrollUp with an explicit margin: delegate to the grid with the
current graphics rendition. -/
def Screen.scrollUpWith (s : Screen) (n : Int) (m : Margin) : Screen :=
  s.setActiveGrid (s.activeGrid.scrollUp n s.cursor.graphicsRendition m)

/-- Modelled from the spec: the single-argument Screen::scrollUp overload of
the missing header scrolls within the current margin. -/
def Screen.scrollUpN (s : Screen) (n : Int) : Screen := s.scrollUpWith n s.margin

/-- Screen::clearScreen: scroll up by the page height within the current
margins; only with the margins at the full page does the content move into
history rather than being destroyed. -/
def Screen.clearScreen (s : Screen) : Screen := s.scrollUpN s.height

/-- Screen::setBuffer: switch the active buffer when the type changes
(EventSink notifications are outside the model). -/
def Screen.setBuffer (s : Screen) (t : ScreenType) : Screen :=
  if s.screenType ≠ t then { s with screenType := t } else s

/-- Screen::setTopBottomMargin (DECSTBM): the bottom argument is clamped to
the page height and defaults to it, the top argument defaults to 1; the
margins change and the cursor homes only when top is strictly less than
bottom. -/
def Screen.setTopBottomMargin (s : Screen) (top bottom : Option Int) : Screen :=
  let bottomV :=
    match bottom with
    | some b => min b s.height
    | none => s.height
  let topV := top.getD 1
  if topV < bottomV then
    ({ s with margin := { s.margin with vFrom := topV, vTo := bottomV } }).moveCursorTo 1 1
  else s

/-- Screen::setLeftRightMargin (DECSLRM): effective only while DECLRMM is
enabled; the right argument is clamped to the page width and defaults to
it, the left argument defaults to 1; the margins change and the cursor
homes only when left + 1 is strictly less than right. -/
def Screen.setLeftRightMargin (s : Screen) (left right : Option Int) : Screen :=
  if s.isModeEnabled .leftRightMargin then
    let rightV :=
      match right with
      | some r => min r s.width
      | none => s.width
    let leftV := left.getD 1
    if leftV + 1 < rightV then
      ({ s with margin := { s.margin with hFrom := leftV, hTo := rightV } }).moveCursorTo 1 1
    else s
  else s

/-- SGR codes dispatched by Screen::setGraphicsRendition. -/
inductive GraphicsRendition where
  | reset
  | bold
  | faint
  | italic
  | underline
  | blinking
  | inverse
  | hidden
  | crossedOut
  | doublyUnderlined
  | curlyUnderlined
  | dottedUnderline
  | dashedUnderline
  | framed
  | overline
  | normal
  | noItalic
  | noUnderline
  | noBlinking
  | noInverse
  | noHidden
  | noCrossedOut
  | noFramed
  | noOverline
deriving DecidableEq, Repr

/-- Screen::setGraphicsRendition: update the current rendition of the
cursor per SGR code. -/
def Screen.setGraphicsRendition (s : Screen) (r : GraphicsRendition) : Screen :=
  let g := s.cursor.graphicsRendition
  let g2 :=
    match r with
    | .reset => {}
    | .bold => { g with styles := addStyle g.styles .bold }
    | .faint => { g with styles := addStyle g.styles .faint }
    | .italic => { g with styles := addStyle g.styles .italic }
    | .underline => { g with styles := addStyle g.styles .underline }
    | .blinking => { g with styles := addStyle g.styles .blinking }
    | .inverse => { g with styles := addStyle g.styles .inverse }
    | .hidden => { g with styles := addStyle g.styles .hidden }
    | .crossedOut => { g with styles := addStyle g.styles .crossedOut }
    | .doublyUnderlined => { g with styles := addStyle g.styles .doublyUnderlined }
    | .curlyUnderlined => { g with styles := addStyle g.styles .curlyUnderlined }
    | .dottedUnderline => { g with styles := addStyle g.styles .dottedUnderline }
    | .dashedUnderline => { g with styles := addStyle g.styles .dashedUnderline }
    | .framed => { g with styles := addStyle g.styles .framed }
    | .overline => { g with styles := addStyle g.styles .overline }
    | .normal => { g with styles := removeStyles g.styles [.bold, .faint] }
    | .noItalic => { g with styles := removeStyles g.styles [.italic] }
    | .noUnderline => { g with styles := removeStyles g.styles [.underline] }
    | .noBlinking => { g with styles := removeStyles g.styles [.blinking] }
    | .noInverse => { g with styles := removeStyles g.styles [.inverse] }
    | .noHidden => { g with styles := removeStyles g.styles [.hidden] }
    | .noCrossedOut => { g with styles := removeStyles g.styles [.crossedOut] }
    | .noFramed => { g with styles := removeStyles g.styles [.framed] }
    | .noOverline => { g with styles := removeStyles g.styles [.overline] }
  { s with cursor := { s.cursor with graphicsRendition := g2 } }

/-- Screen::setMode for ANSI modes: validity check, then the bit. -/
def Screen.setAnsiMode (s : Screen) (m : AnsiMode) (e : Bool) : Screen :=
  if isValidAnsiMode (toAnsiModeNum m) then
    { s with modes := s.modes.setAnsi (toAnsiModeNum m) e }
  else s

/-- The trailing bitset update of Screen::setMode for DEC modes. -/
def Screen.setModeBit (s : Screen) (m : DECMode) (e : Bool) : Screen :=
  { s with modes := s.modes.setDec (toDECModeNum m) e }

/-- Screen::saveCursor (DECSC). -/
def Screen.saveCursorOp (s : Screen) : Screen := { s with savedCursor := s.cursor }

/-- Screen::restoreCursor(Cursor): clear wrap-pending and install the saved
cursor. -/
def Screen.restoreCursorWith (s : Screen) (saved : Cursor) : Screen :=
  { s with wrapPending := 0, cursor := saved }

/-- The Screen::setMode branches that do not re-enter setMode, followed by
the bitset update.  The columns132, saveCursor and extendedAltScreen
branches are completed in Screen.setMode below; every helper that the
source reaches through a nested setMode call on a simple mode uses this
function, which agrees with Screen.setMode on those modes. -/
def Screen.setModeSimple (s : Screen) (m : DECMode) (e : Bool) : Screen :=
  if isValidDECMode (toDECModeNum m) then
    let s1 :=
      match m with
      | .autoWrap => { s with cursor := { s.cursor with autoWrap := e } }
      | .leftRightMargin =>
          if ¬ e then { s with margin := { s.margin with hFrom := 1, hTo := s.width } }
          else s
      | .origin => { s with cursor := { s.cursor with originMode := e } }
      | .visibleCursor => { s with cursor := { s.cursor with visible := e } }
      | .useAlternateScreen =>
          s.setBuffer (if e then ScreenType.alternate else ScreenType.main)
      | .textReflow =>
          if s.isPrimaryScreen then
            let g : Grid := s.primaryGrid
            if e then
              { s with primaryGrid :=
                  { g with page := g.page.map (fun (l : Line) => { l with wrappable := true }) } }
            else
              { s with primaryGrid :=
                  { g with page := g.page.mapIdx (fun (i : Nat) (l : Line) =>
                      if s.cursor.row ≤ (i : Int) + 1 then { l with wrappable := false } else l) } }
          else s
      | _ => s
    s1.setModeBit m e
  else s

/-- Screen::restoreCursor() (DECRC): restore the saved cursor, then re-apply
its auto-wrap and origin flags through setMode. -/
def Screen.restoreCursorOp (s : Screen) : Screen :=
  let saved := s.savedCursor
  let s1 := s.restoreCursorWith saved
  let s2 := s1.setModeSimple .autoWrap saved.autoWrap
  s2.setModeSimple .origin saved.originMode

/-- Screen::resize: resize both grids, carry the cursor, recompute
wrap-pending, reset the margins to the new page, clamp the cursor and the
last cursor position, and truncate the tab stops. -/
def Screen.resizeScreen (s : Screen) (newW newH : Int) : Screen :=
  let r1 := s.activeGrid.resize newW newH (s.cursor.row, s.cursor.col)
  let s1 := (s.setActiveGrid r1.1)
  let s2 := { s1 with cursor := { s1.cursor with row := r1.2.1, col := r1.2.2 } }
  let r2 := s2.backgroundGrid.resize newW newH (s2.cursor.row, s2.cursor.col)
  let s3 := s2.setBackgroundGrid r2.1
  let wp : Int :=
    if newW > s3.width then 0
    else if s3.cursor.col = s3.width ∧ newW < s3.width then 1
    else s3.wrapPending
  let s4 := { s3 with
    wrapPending := wp
    margin := { vFrom := 1, vTo := newH, hFrom := 1, hTo := newW }
    width := newW
    height := newH }
  let s5 := { s4 with cursor := { s4.cursor with
    row := clampInt s4.cursor.row 1 s4.height
    col := clampInt s4.cursor.col 1 s4.width } }
  let lr := clampInt s5.lastCursorRow 1 s5.height
  let lc := clampInt s5.lastCursorCol 1 s5.width
  let s6 := { s5 with lastCursorRow := lr, lastCursorCol := lc,
                      lastColRow := lr, lastColCol := lc }
  { s6 with tabs := (s6.tabs.reverse.dropWhile (fun t => decide (newW < t))).reverse }

/-- Screen::resizeColumns (DECCOLM / DECSCPP): optionally reset margins and
clear, then disable DECLRMM and resize to the new column count. -/
def Screen.resizeColumns (s : Screen) (newColumnCount : Int) (clear : Bool) : Screen :=
  let s1 :=
    if clear then
      let a := s.setTopBottomMargin (some 1) (some s.height)
      let b := a.setLeftRightMargin (some 1) (some a.width)
      b.clearScreen
    else s
  let s2 := s1.setModeSimple .leftRightMargin false
  s2.resizeScreen newColumnCount s2.height

/-- Screen::setMode for DEC private modes: every branch of the source
switch, with the trailing bitset update. -/
def Screen.setMode (s : Screen) (m : DECMode) (e : Bool) : Screen :=
  match m with
  | .columns132 =>
      if isValidDECMode (toDECModeNum DECMode.columns132) then
        let s1 :=
          if ¬ e ∨ s.isModeEnabled .allowColumns80to132 then
            let clear := e ≠ s.isModeEnabled .columns132
            let cols : Int := if e then 132 else 80
            s.resizeColumns cols clear
          else s
        s1.setModeBit .columns132 e
      else s
  | .saveCursor =>
      if isValidDECMode (toDECModeNum DECMode.saveCursor) then
        let s1 := if e then s.saveCursorOp else s.restoreCursorOp
        s1.setModeBit .saveCursor e
      else s
  | .extendedAltScreen =>
      if isValidDECMode (toDECModeNum DECMode.extendedAltScreen) then
        let s1 :=
          if e then
            let s2 := { s with savedPrimaryCursor := s.cursor }
            (s2.setModeSimple .useAlternateScreen true).clearScreen
          else
            (s.setModeSimple .useAlternateScreen false).restoreCursorWith s.savedPrimaryCursor
        s1.setModeBit .extendedAltScreen e
      else s
  | _ => s.setModeSimple m e

/-- Screen::saveModes (XTSAVE). -/
def Screen.saveModes (s : Screen) (ms : List DECMode) : Screen :=
  { s with modes := s.modes.save (ms.map toDECModeNum) }

/-- Screen::restoreModes (XTRESTORE). -/
def Screen.restoreModes (s : Screen) (ms : List DECMode) : Screen :=
  { s with modes := s.modes.restore (ms.map toDECModeNum) }

/-- Screen::resetSoft (DECSTR), step for step from the source. -/
def Screen.resetSoft (s : Screen) : Screen :=
  let s1 := s.setMode .batchedRendering false
  let s2 := s1.setMode .textReflow true
  let s3 := s2.setGraphicsRendition .reset
  let s4 := { s3 with savedCursor := { s3.savedCursor with row := 1, col := 1 } }
  let s5 := s4.setMode .visibleCursor true
  let s6 := s5.setMode .origin false
  let s7 := s6.setAnsiMode .keyboardAction false
  let s8 := s7.setMode .autoWrap false
  let s9 := s8.setAnsiMode .insert false
  let s10 := s9.setMode .useApplicationCursorKeys false
  let s11 := s10.setTopBottomMargin (some 1) (some s10.height)
  let s12 := s11.setLeftRightMargin (some 1) (some s11.width)
  let s13 := { s12 with currentHyperlink := none }
  { s13 with colorPalette := s13.defaultColorPalette }

/-- Screen::resetHard, step for step from the source. -/
def Screen.resetHard (s : Screen) : Screen :=
  let s1 := s.setBuffer ScreenType.main
  let s2 := { s1 with modes := {} }
  let s3 := s2.setMode .autoWrap true
  let s4 := s3.setMode .textReflow true
  let s5 := { s4 with tabs := [] }
  let hist := s5.primaryGrid.maxHistory
  let s6 := { s5 with
    primaryGrid := emptyGrid s5.width s5.height true hist
    alternateGrid := emptyGrid s5.width s5.height false (some 0)
    screenType := ScreenType.main }
  let s7 := s6.moveCursorTo 1 1
  let s8 := { s7 with
    lastColRow := s7.cursor.row, lastColCol := s7.cursor.col
    lastCursorRow := s7.cursor.row, lastCursorCol := s7.cursor.col }
  let s9 := { s8 with margin := { vFrom := 1, vTo := s8.height, hFrom := 1, hTo := s8.width } }
  { s9 with currentHyperlink := none, colorPalette := s9.defaultColorPalette }

/-- The Screen constructor: initialize the members from the arguments, then
run resetHard, exactly as the source constructor does. -/
def Screen.construct (w h : Int) (maxHist : Option Int) (pal : ColorPalette) : Screen :=
  Screen.resetHard
    { width := w
      height := h
      margin := { vFrom := 1, vTo := h, hFrom := 1, hTo := w }
      primaryGrid := emptyGrid w h true maxHist
      alternateGrid := emptyGrid w h false (some 0)
      colorPalette := pal
      defaultColorPalette := pal }

/-- Screen::reply: append bytes to the reply channel. -/
def Screen.reply (s : Screen) (txt : String) : Screen :=
  { s with replyData := s.replyData ++ txt }

/-- Screen::requestAnsiMode (DECRQM for ANSI modes): reply CSI code SEMI n
DOLLAR y with n = 1 (set), 2 (reset) or 0 (not recognized). -/
def Screen.requestAnsiMode (s : Screen) (mode : Int) : Screen :=
  let n : Int := if isValidAnsiMode mode then (if s.modes.ansiEnabled mode then 1 else 2) else 0
  s.reply ("\x1b[" ++ toString mode ++ ";" ++ toString n ++ "$y")

/-- Screen::requestDECMode (DECRQM for DEC private modes): the source
formats the reply exactly like the ANSI one, without a question mark. -/
def Screen.requestDECMode (s : Screen) (mode : Int) : Screen :=
  let n : Int := if isValidDECMode mode then (if s.modes.decEnabled mode then 1 else 2) else 0
  s.reply ("\x1b[" ++ toString mode ++ ";" ++ toString n ++ "$y")

/-! Text output (Screen::writeText and its helpers). -/

/-- Modelled from the spec: the Unicode facilities used by text output
(charset mapping through the cursor charset tables, East-Asian display
width, grapheme nonbreakability, and the width delta when a codepoint is
appended to an existing cluster) live outside the snapshot and are passed
as an environment. -/
structure UnicodeEnv where
  charsetMap : Nat → Nat
  charWidth : Nat → Int
  nonbreakable : Nat → Nat → Bool
  appendWidthDelta : List Nat → Nat → Int

/-- Cell at a 1-based page coordinate of the active grid. -/
def Screen.cellAt (s : Screen) (r c : Int) : Cell :=
  ((s.activeGrid.page.getD (r - 1).toNat (freshLine s.width true)).cells).getD (c - 1).toNat {}

/-- Modify the line at a 1-based page row of the active grid. -/
def Screen.modifyLine (s : Screen) (r : Int) (f : Line → Line) : Screen :=
  let g := s.activeGrid
  s.setActiveGrid
    { g with page := g.page.mapIdx (fun i l => if i = (r - 1).toNat then f l else l) }

/-- Replace the cell at a 1-based page coordinate of the active grid. -/
def Screen.setCellAt (s : Screen) (r c : Int) (cell : Cell) : Screen :=
  s.modifyLine r (fun l => { l with cells := l.cells.set (c - 1).toNat cell })

/-- Cell::reset with a rendition and hyperlink: an empty cell of width one
carrying them. -/
def blankResetCell (a : GraphicsAttributes) (link : Option String) : Cell :=
  { codepoints := [], width := 1, attrs := a, hyperlink := link }

/-- Set the wrapped flag of the current line (Line::setWrapped). -/
def Screen.setCurrentLineWrapped (s : Screen) (v : Bool) : Screen :=
  s.modifyLine s.cursor.row (fun l => { l with wrapped := v })

/-- Screen::linefeed(int): clear wrap-pending; at the bottom margin or the
page bottom scroll up one line and re-home the column, otherwise advance
the row and set the column. -/
def Screen.linefeedTo (s : Screen) (newColumn : Int) : Screen :=
  let s0 := { s with wrapPending := 0 }
  if s0.cursor.row = s0.margin.vTo ∨ s0.cursor.row = s0.height then
    let s1 := s0.scrollUpN 1
    s1.moveCursorTo s1.cursorPosition.1 newColumn
  else
    { s0 with cursor := { s0.cursor with row := s0.cursor.row + 1, col := newColumn } }

/-- Screen::writeCharToCurrentAndAdvance: store the character with the
current rendition and hyperlink at the cursor, record the last-written
position, then advance by the character width if it fits before the right
boundary (resetting the continuation cells), else flag wrap-pending when
auto-wrap is on. -/
def Screen.writeCharToCurrentAndAdvance (env : UnicodeEnv) (ch : Nat) (s : Screen) : Screen :=
  let w := env.charWidth ch
  let cell : Cell :=
    { codepoints := [ch], width := w, attrs := s.cursor.graphicsRendition,
      hyperlink := s.currentHyperlink }
  let s1 := s.setCellAt s.cursor.row s.cursor.col cell
  let s2 := { s1 with
    lastColRow := s1.cursor.row, lastColCol := s1.cursor.col
    lastCursorRow := s1.cursor.row, lastCursorCol := s1.cursor.col }
  let cursorInsideMargin := s2.isModeEnabled .leftRightMargin ∧ s2.isCursorInsideMargins
  let cellsAvailable :=
    if cursorInsideMargin then s2.margin.hTo - s2.cursor.col else s2.width - s2.cursor.col
  let n := min w cellsAvailable
  if n = w then
    let row := s2.cursor.row
    let col := s2.cursor.col
    let s3 := (List.range (n.toNat - 1)).foldl
      (fun acc i =>
        acc.setCellAt row (col + 1 + (i : Int))
          (blankResetCell acc.cursor.graphicsRendition acc.currentHyperlink))
      s2
    { s3 with cursor := { s3.cursor with col := col + n } }
  else if s2.cursor.autoWrap then { s2 with wrapPending := 1 } else s2

/-- Screen::clearAndAdvance: after a cluster grew by some width, reset that
many cells from the cursor on and advance, if they fit into the margin
width, else flag wrap-pending when auto-wrap is on. -/
def Screen.clearAndAdvance (s : Screen) (offset : Int) : Screen :=
  if offset = 0 then s
  else
    let availableColumnCount := s.margin.hLength - s.cursor.col
    let n := min offset availableColumnCount
    if n = offset then
      let row := s.cursor.row
      let col := s.cursor.col
      let s2 := (List.range n.toNat).foldl
        (fun acc i =>
          acc.setCellAt row (col + (i : Int))
            (blankResetCell acc.cursor.graphicsRendition acc.currentHyperlink))
        s
      { s2 with cursor := { s2.cursor with col := col + n } }
    else if s.cursor.autoWrap then { s with wrapPending := 1 } else s

/-- Cell::appendCharacter on the last written cell: append the codepoint
and extend the width by the cluster delta; returns the delta. -/
def Screen.appendToLastColumn (env : UnicodeEnv) (ch : Nat) (s : Screen) : Screen × Int :=
  let cell := s.cellAt s.lastColRow s.lastColCol
  let delta := env.appendWidthDelta cell.codepoints ch
  let cell2 := { cell with codepoints := cell.codepoints ++ [ch], width := cell.width + delta }
  (s.setCellAt s.lastColRow s.lastColCol cell2, delta)

/-- Screen::writeText: wrap first when pending and auto-wrap is on (the new
line is flagged as a continuation under reflow), apply the charset mapping
below 0x7F and turn DEL into a space, then either append to the previous
cluster (consecutive text output with a nonbreakable boundary) or write at
the cursor and advance. -/
def Screen.writeText (env : UnicodeEnv) (ch : Nat) (s : Screen) : Screen :=
  let consecutiveTextWrite := s.instructionCounter = 1
  let sA :=
    if s.wrapPending ≠ 0 ∧ s.cursor.autoWrap then
      let s1 := s.linefeedTo s.margin.hFrom
      if s1.isModeEnabled .textReflow then s1.setCurrentLineWrapped true else s1
    else s
  let c := if ch < 127 then env.charsetMap ch else if ch = 127 then 32 else ch
  let lastCell := sA.cellAt sA.lastColRow sA.lastColCol
  let lastChar :=
    if consecutiveTextWrite ∧ ¬ lastCell.codepoints.isEmpty
    then lastCell.codepoints.getLastD 0 else 0
  let insertToPrev := lastChar ≠ 0 ∧ env.nonbreakable lastChar c
  let sB :=
    if ¬ insertToPrev then sA.writeCharToCurrentAndAdvance env c
    else
      let res := sA.appendToLastColumn env c
      if res.2 > 0 then res.1.clearAndAdvance res.2 else res.1
  { sB with instructionCounter := 0 }

/-! Input generation (spec section 4.7).  InputGenerator.cpp is not part of
the snapshot (only its tests are); the encoder for character presses with
the Control modifier is modelled from the spec. -/

/-- Keyboard modifier relevant to the modelled encoder. -/
inductive Modifier where
  | noModifier
  | control
deriving DecidableEq, Repr

/-- Modelled from the spec: the InputGenerator state, a pending byte
queue. -/
structure InputGenerator where
  pendingSequence : List Nat := []
deriving DecidableEq, Repr

/-- Modelled from the spec: InputGenerator::peek returns all pending bytes
without consuming. -/
def InputGenerator.peek (g : InputGenerator) : List Nat := g.pendingSequence

/-- Modelled from the spec: InputGenerator::consume drops the first n
pending bytes. -/
def InputGenerator.consume (g : InputGenerator) (n : Nat) : InputGenerator :=
  { g with pendingSequence := g.pendingSequence.drop n }

/-- Modelled from the spec: the control-character mapping of a character
press with Control held: space gives NUL, and the block 0x40 to 0x5F
(letters A to Z, bracket, backslash, closing bracket, caret, underscore)
gives the low five bits of the character. -/
def controlCharOf (ch : Nat) : Option Nat :=
  if ch = 32 then some 0
  else if 0x40 ≤ ch ∧ ch ≤ 0x5F then some (ch % 32)
  else none

/-- Modelled from the spec: InputGenerator::generate for a character press:
with Control held emit the single mapped control byte when the character
has one, otherwise pass the character through. -/
def InputGenerator.generate (g : InputGenerator) (ch : Nat) (m : Modifier) : InputGenerator :=
  match m with
  | .control =>
      match controlCharOf ch with
      | some b => { g with pendingSequence := g.pendingSequence ++ [b] }
      | none => { g with pendingSequence := g.pendingSequence ++ [ch] }
  | .noModifier => { g with pendingSequence := g.pendingSequence ++ [ch] }

/-! Concrete fixtures used by the closed test theorems. -/

/-- Unicode environment for the concrete tests: US-ASCII charset mapping,
every codepoint narrow except U+1F600 (grinning face, East-Asian wide),
no grapheme combination. -/
def testUnicodeEnv : UnicodeEnv :=
  { charsetMap := fun c => c
    charWidth := fun c => if c = 128512 then 2 else 1
    nonbreakable := fun _ _ => false
    appendWidthDelta := fun _ _ => 0 }

/-- State reached by writing a narrow character and then a wide character
on a 3-column page: the wide character arrives with the cursor at
column 2. -/
def wideCharProbe : Screen :=
  ((Screen.construct 3 2 none {}).writeText testUnicodeEnv 97).writeText testUnicodeEnv 128512

/-- State reached by DECSET 1000 followed by DECRQM 1000 on a fresh 5 by 5
screen (the scenario of the RequestMode test). -/
def decrqmProbe : Screen :=
  ((Screen.construct 5 5 none {}).setMode .mouseProtocolNormalTracking true).requestDECMode 1000

/-- State reached on a 2 by 3 screen with history capacity 5 by writing the
letter a at position (2,1) and then issuing DECSTBM 2;3, so the vertical
margins cover rows 2 to 3 only. -/
def clearScreenMarginProbe : Screen :=
  ((((Screen.construct 2 3 (some 5) {}).moveCursorTo 2 1).writeText
      testUnicodeEnv 97).setTopBottomMargin (some 2) (some 3))

/-- Freshly constructed screen with the same page size, history capacity
and default palette as a given screen. -/
def freshOf (s : Screen) : Screen :=
  Screen.construct s.width s.height s.primaryGrid.maxHistory s.defaultColorPalette

/-! Helper lemmas about the Modes component. -/

/-- Setting a DEC mode bit leaves the save stacks untouched. -/
@[simp] theorem Modes.saveStacks_setDec (m : Modes) (num : Int) (e : Bool) :
    (m.setDec num e).saveStacks = m.saveStacks := by
  unfold Modes.setDec
  split <;> rfl

/-- Setting an ANSI mode bit leaves the save stacks untouched. -/
@[simp] theorem Modes.saveStacks_setAnsi (m : Modes) (num : Int) (e : Bool) :
    (m.setAnsi num e).saveStacks = m.saveStacks := by
  unfold Modes.setAnsi
  split <;> rfl

/-- Replacing a save-stack entry leaves the DEC bitset untouched. -/
@[simp] theorem Modes.decSet_setStack (m : Modes) (num : Int) (v : List Bool) :
    (m.setStack num v).decSet = m.decSet := by
  unfold Modes.setStack
  split <;> rfl

/-- Reading a bit right after setting it gives the written value. -/
@[simp] theorem Modes.decEnabled_setDec_self (m : Modes) (num : Int) (e : Bool) :
    (m.setDec num e).decEnabled num = e := by
  cases e <;> simp [Modes.setDec, Modes.decEnabled]
  split <;> simp_all

/-- Bits of other modes survive a bit update. -/
theorem Modes.decEnabled_setDec_ne (m : Modes) (num num2 : Int) (e : Bool)
    (h : num2 ≠ num) : (m.setDec num e).decEnabled num2 = m.decEnabled num2 := by
  cases e <;> simp [Modes.setDec, Modes.decEnabled]
  · simp [List.mem_filter, h]
  · split <;> simp [h]

/-- Lookup in an association list after replacing the entries of one key. -/
theorem lookup_map_replace (l : List (Int × List Bool)) (num : Int) (v : List Bool) :
    (l.map (fun p => if p.1 = num then (num, v) else p)).lookup num =
      if (l.lookup num).isSome then some v else none := by
  induction l with
  | nil => simp
  | cons p l ih =>
      obtain ⟨k, val⟩ := p
      simp only [List.map_cons]
      by_cases h : k = num
      · subst h
        rw [show (if ((k, val) : Int × List Bool).1 = k then (k, v) else (k, val)) = (k, v)
              from if_pos rfl]
        simp [List.lookup]
      · rw [show (if ((k, val) : Int × List Bool).1 = num then (num, v) else (k, val)) = (k, val)
              from if_neg h]
        have hb : (num == k) = false := by
          simp only [beq_eq_false_iff_ne, ne_eq]
          omega
        rw [List.lookup, List.lookup, hb, ih]

/-- Reading the stack entry right after replacing it gives the new
value. -/
theorem Modes.stackOf_setStack_self (m : Modes) (num : Int) (v : List Bool) :
    (m.setStack num v).stackOf num = v := by
  unfold Modes.setStack Modes.stackOf
  split
  · rename_i h
    simp [lookup_map_replace, h]
  · simp [List.lookup]

/-! The save stacks survive every Screen operation except XTSAVE and
XTRESTORE themselves; in particular Screen::setMode never touches them,
whatever side effects its branch performs. -/

/-- Every listed DEC mode has a recognized number. -/
@[simp] theorem isValidDECMode_toDECModeNum (m : DECMode) :
    isValidDECMode (toDECModeNum m) = true := by
  cases m <;> rfl

/-- The whole Modes component survives storing the active grid. -/
@[simp] theorem Screen.modes_setActiveGrid (s : Screen) (g : Grid) :
    (s.setActiveGrid g).modes = s.modes := by
  unfold Screen.setActiveGrid
  split <;> rfl

/-- The whole Modes component survives storing the background grid. -/
@[simp] theorem Screen.modes_setBackgroundGrid (s : Screen) (g : Grid) :
    (s.setBackgroundGrid g).modes = s.modes := by
  unfold Screen.setBackgroundGrid
  split <;> rfl

/-- The whole Modes component survives scrolling. -/
@[simp] theorem Screen.modes_scrollUpWith (s : Screen) (n : Int) (m : Margin) :
    (s.scrollUpWith n m).modes = s.modes := by
  unfold Screen.scrollUpWith
  simp

/-- The whole Modes component survives clearScreen. -/
@[simp] theorem Screen.modes_clearScreen (s : Screen) :
    s.clearScreen.modes = s.modes := by
  unfold Screen.clearScreen Screen.scrollUpN
  simp

/-- The whole Modes component survives moveCursorTo. -/
@[simp] theorem Screen.modes_moveCursorTo (s : Screen) (r c : Int) :
    (s.moveCursorTo r c).modes = s.modes := rfl

/-- The whole Modes component survives DECSTBM. -/
@[simp] theorem Screen.modes_setTopBottomMargin (s : Screen) (t b : Option Int) :
    (s.setTopBottomMargin t b).modes = s.modes := by
  simp only [Screen.setTopBottomMargin]
  repeat' split
  all_goals rfl

/-- The whole Modes component survives DECSLRM. -/
@[simp] theorem Screen.modes_setLeftRightMargin (s : Screen) (l r : Option Int) :
    (s.setLeftRightMargin l r).modes = s.modes := by
  simp only [Screen.setLeftRightMargin]
  repeat' split
  all_goals rfl

/-- The whole Modes component survives a screen resize. -/
@[simp] theorem Screen.modes_resizeScreen (s : Screen) (w h : Int) :
    (s.resizeScreen w h).modes = s.modes := by
  simp only [Screen.resizeScreen]
  simp

/-- The whole Modes component survives setBuffer. -/
@[simp] theorem Screen.modes_setBuffer (s : Screen) (t : ScreenType) :
    (s.setBuffer t).modes = s.modes := by
  unfold Screen.setBuffer
  split <;> rfl

/-- The whole Modes component survives restoring a cursor value. -/
@[simp] theorem Screen.modes_restoreCursorWith (s : Screen) (c : Cursor) :
    (s.restoreCursorWith c).modes = s.modes := rfl

/-- The whole Modes component survives DECSC. -/
@[simp] theorem Screen.modes_saveCursorOp (s : Screen) :
    s.saveCursorOp.modes = s.modes := rfl

/-- The simple setMode branches affect the Modes component only through the
trailing bitset update. -/
theorem Screen.modes_setModeSimple (s : Screen) (m : DECMode) (e : Bool) :
    (s.setModeSimple m e).modes = s.modes.setDec (toDECModeNum m) e := by
  simp only [Screen.setModeSimple, Screen.setModeBit, Screen.setBuffer]
  rw [if_pos (isValidDECMode_toDECModeNum m)]
  split
  all_goals (repeat' split)
  all_goals rfl

/-- The save stacks survive the simple setMode branches. -/
@[simp] theorem Screen.saveStacks_setModeSimple (s : Screen) (m : DECMode) (e : Bool) :
    (s.setModeSimple m e).modes.saveStacks = s.modes.saveStacks := by
  simp [Screen.modes_setModeSimple]

/-- The save stacks survive restoreCursor. -/
@[simp] theorem Screen.saveStacks_restoreCursorOp (s : Screen) :
    s.restoreCursorOp.modes.saveStacks = s.modes.saveStacks := by
  simp only [Screen.restoreCursorOp]
  simp [Screen.modes_setModeSimple]

/-- The save stacks survive resizeColumns. -/
@[simp] theorem Screen.saveStacks_resizeColumns (s : Screen) (n : Int) (c : Bool) :
    (s.resizeColumns n c).modes.saveStacks = s.modes.saveStacks := by
  simp only [Screen.resizeColumns]
  split <;> simp [Screen.modes_setModeSimple]

/-- Screen::setMode never touches the XTSAVE/XTRESTORE stacks, whatever
side effects its branch performs. -/
@[simp] theorem Screen.saveStacks_setMode (s : Screen) (m : DECMode) (e : Bool) :
    (s.setMode m e).modes.saveStacks = s.modes.saveStacks := by
  cases m
  case columns132 =>
    simp only [Screen.setMode]
    rw [if_pos (by rfl)]
    simp only [Screen.setModeBit]
    split <;> simp
  case saveCursor =>
    simp only [Screen.setMode]
    rw [if_pos (by rfl)]
    simp only [Screen.setModeBit]
    split <;> simp [Screen.saveCursorOp]
  case extendedAltScreen =>
    simp only [Screen.setMode]
    rw [if_pos (by rfl)]
    simp only [Screen.setModeBit]
    split <;> simp [Screen.modes_setModeSimple]
  all_goals (simp only [Screen.setMode]; simp)

/-- Replacing a stack entry does not change any mode bit. -/
@[simp] theorem Modes.decEnabled_setStack (m : Modes) (num num2 : Int) (v : List Bool) :
    (m.setStack num v).decEnabled num2 = m.decEnabled num2 := by
  simp [Modes.decEnabled]

/-! Claim theorems. -/

/-- C8: for any DEC private mode M and any boolean b, executing save([M]),
then set(M, b), then restore([M]) leaves the enabled-state of M identical
to its value immediately before the save: the XTSAVE/XTRESTORE per-mode
stack round-trips, whatever side effects the intervening setMode
performs. -/
theorem saveModes_setMode_restoreModes_roundtrip (s : Screen) (m : DECMode) (b : Bool) :
    (((s.saveModes [m]).setMode m b).restoreModes [m]).isModeEnabled m
      = s.isModeEnabled m := by
  have h1 : (s.saveModes [m]).modes
      = s.modes.setStack (toDECModeNum m)
          (s.modes.decEnabled (toDECModeNum m) :: s.modes.stackOf (toDECModeNum m)) := by
    simp [Screen.saveModes, Modes.save]
  have h2 : (((s.saveModes [m]).setMode m b).modes).saveStacks
      = (s.modes.setStack (toDECModeNum m)
          (s.modes.decEnabled (toDECModeNum m) :: s.modes.stackOf (toDECModeNum m))).saveStacks := by
    rw [Screen.saveStacks_setMode, h1]
  have h3 : (((s.saveModes [m]).setMode m b).modes).stackOf (toDECModeNum m)
      = s.modes.decEnabled (toDECModeNum m) :: s.modes.stackOf (toDECModeNum m) := by
    have hself := Modes.stackOf_setStack_self s.modes (toDECModeNum m)
      (s.modes.decEnabled (toDECModeNum m) :: s.modes.stackOf (toDECModeNum m))
    unfold Modes.stackOf at hself ⊢
    rw [h2]
    exact hself
  show (((((s.saveModes [m]).setMode m b)).restoreModes [m]).modes).decEnabled (toDECModeNum m)
      = s.modes.decEnabled (toDECModeNum m)
  simp only [Screen.restoreModes, Modes.restore, List.map_cons, List.map_nil,
    List.foldl_cons, List.foldl_nil]
  rw [h3]
  simp

/-- C7: with the Control modifier the input generator emits exactly one
byte: the low five bits of each letter A to Z, 0x00 for space, 0x1B for
the opening bracket, 0x1C for backslash, 0x1D for the closing bracket,
0x1E for caret and 0x1F for underscore. -/
theorem generate_control_single_byte (g : InputGenerator) (c : Nat) :
    (65 ≤ c → c ≤ 90 → (g.generate c .control).peek = g.peek ++ [c &&& 31]) ∧
    (g.generate 32 .control).peek = g.peek ++ [0] ∧
    (g.generate 91 .control).peek = g.peek ++ [27] ∧
    (g.generate 92 .control).peek = g.peek ++ [28] ∧
    (g.generate 93 .control).peek = g.peek ++ [29] ∧
    (g.generate 94 .control).peek = g.peek ++ [30] ∧
    (g.generate 95 .control).peek = g.peek ++ [31] := by
  refine ⟨fun h1 h2 => ?_, rfl, rfl, rfl, rfl, rfl, rfl⟩
  interval_cases c <;> rfl

/-- C7 witness: the letter case at the concrete input Ctrl+A. -/
theorem generate_control_single_byte_witness :
    65 ≤ 65 ∧ 65 ≤ 90 ∧
    (InputGenerator.generate {} 65 .control).peek = InputGenerator.peek {} ++ [65 &&& 31] :=
  ⟨by decide, by decide,
   (generate_control_single_byte {} 65).1 (by decide) (by decide)⟩

/-- C4: with reflow enabled, content stored as wrappable paragraphs in a
grid of c columns (of any total length at most c times l characters),
re-split at a smaller column count and then re-split back at c, is
restored exactly: both the stored lines and the concatenation of line text
over wrap-runs are unchanged by the shrink-then-restore round-trip. -/
theorem reflow_shrink_restore_roundtrip (ps : List (List Nat × Bool)) (c csub l : Nat)
    (hsub : 1 ≤ csub) (hlt : csub < c)
    (hbound : (ps.map (fun p => p.1.length)).sum ≤ c * l) :
    reflowLines c (reflowLines csub (linesOfParagraphs c ps)) = linesOfParagraphs c ps ∧
    flowText (reflowLines c (reflowLines csub (linesOfParagraphs c ps)))
      = flowText (linesOfParagraphs c ps) := by
  constructor
  · rw [reflowLines_linesOfParagraphs, reflowLines_linesOfParagraphs]
  · rw [reflowLines_linesOfParagraphs, reflowLines_linesOfParagraphs]

/-- C4 witness: a four-character paragraph in three columns, shrunk to two
columns and restored. -/
theorem reflow_shrink_restore_roundtrip_witness :
    1 ≤ 2 ∧ 2 < 3 ∧
    (([([1, 2, 3, 4], false)] : List (List Nat × Bool)).map (fun p => p.1.length)).sum ≤ 3 * 2 ∧
    (reflowLines 3 (reflowLines 2 (linesOfParagraphs 3 [([1, 2, 3, 4], false)]))
        = linesOfParagraphs 3 [([1, 2, 3, 4], false)] ∧
     flowText (reflowLines 3 (reflowLines 2 (linesOfParagraphs 3 [([1, 2, 3, 4], false)])))
        = flowText (linesOfParagraphs 3 [([1, 2, 3, 4], false)])) :=
  ⟨by decide, by decide, by decide,
   reflow_shrink_restore_roundtrip [([1, 2, 3, 4], false)] 3 2 2
     (by decide) (by decide) (by decide)⟩

/-- C6 counterexample: with the cursor parked at (2, 2) of a fresh 4 by 4
screen (margins at the full page), DECSET of the origin mode sets the flag
but leaves the cursor at (2, 2) instead of moving it to (1, 1) of the
active region, refuting the claim as stated. -/
theorem setMode_origin_counterexample :
    ((((Screen.construct 4 4 none {}).moveCursorTo 2 2).setMode .origin true).cursor.originMode
        = true) ∧
    ((((Screen.construct 4 4 none {}).moveCursorTo 2 2).setMode .origin true).margin
        = { vFrom := 1, vTo := 4, hFrom := 1, hTo := 4 }) ∧
    ¬ ((((Screen.construct 4 4 none {}).moveCursorTo 2 2).setMode .origin true).cursor.row = 1 ∧
       (((Screen.construct 4 4 none {}).moveCursorTo 2 2).setMode .origin true).cursor.col = 1) := by
  decide

/-- C6 (amended): setting or resetting DECOM via DECSET/DECRST toggles the
origin-mode flag (both the cursor flag and the mode bit) and leaves the
cursor position, the wrap-pending flag, the margins and both grids
unchanged; the cursor is not moved. -/
theorem setMode_origin_toggles_flag_only (s : Screen) (e : Bool) :
    ((s.setMode .origin e).cursor.originMode = e) ∧
    ((s.setMode .origin e).isModeEnabled .origin = e) ∧
    ((s.setMode .origin e).cursor.row = s.cursor.row) ∧
    ((s.setMode .origin e).cursor.col = s.cursor.col) ∧
    ((s.setMode .origin e).wrapPending = s.wrapPending) ∧
    ((s.setMode .origin e).margin = s.margin) ∧
    ((s.setMode .origin e).primaryGrid = s.primaryGrid) ∧
    ((s.setMode .origin e).alternateGrid = s.alternateGrid) := by
  have h : s.setMode .origin e =
      { s with cursor := { s.cursor with originMode := e },
               modes := s.modes.setDec 6 e } := rfl
  rw [h]
  refine ⟨rfl, ?_, rfl, rfl, rfl, rfl, rfl, rfl⟩
  show ((s.modes.setDec 6 e).decEnabled 6) = e
  simp

/-- C1: the invariant asserted by Screen::verifyState fails on the code:
writing a width-2 character with the cursor at column 2 of a 3-column page
(auto-wrap on, DECLRMM off) leaves wrap_pending = 1 with the cursor at
column 2, which is not the right page column 3, even though the cursor
stays inside the addressable region. -/
theorem writeText_wide_char_wrap_pending_off_margin :
    wideCharProbe.wrapPending = 1 ∧
    wideCharProbe.isModeEnabled .leftRightMargin = false ∧
    wideCharProbe.cursor.autoWrap = true ∧
    wideCharProbe.width = 3 ∧
    wideCharProbe.cursor.col = 2 ∧
    wideCharProbe.cursor.col ≠ wideCharProbe.width ∧
    (1 ≤ wideCharProbe.cursor.row ∧ wideCharProbe.cursor.row ≤ wideCharProbe.height ∧
     1 ≤ wideCharProbe.cursor.col ∧ wideCharProbe.cursor.col ≤ wideCharProbe.width) := by
  decide

/-- C3: after DECSET 1000 the DECRQM reply of the code is
ESC LBRACKET 1000 SEMI 1 DOLLAR y, without the question mark that both the
claim and the RequestMode unit test of the repository expect. -/
theorem requestDECMode_reply_no_question_mark :
    decrqmProbe.replyData = "\x1b[1000;1$y" ∧
    decrqmProbe.replyData ≠ "\x1b[?1000;1$y" := by
  decide

/-- C9 counterexample: the unconditional claim fails once DECSTBM margins
are active. On a 2 by 3 screen with history capacity 5, a letter written
at position (2,1) is visible, the history is empty, and DECSTBM 2;3 has
restricted the vertical margins; clearScreen then scrolls only the margin
rectangle: the history stays empty (nothing is pushed into scrollback) and
the whole page ends up blank, so the previously visible letter is
destroyed rather than preserved. -/
theorem clearScreen_under_margins_counterexample :
    (clearScreenMarginProbe.cellAt 2 1).codepoints = [97] ∧
    clearScreenMarginProbe.primaryGrid.history = [] ∧
    clearScreenMarginProbe.margin = { vFrom := 2, vTo := 3, hFrom := 1, hTo := 2 } ∧
    clearScreenMarginProbe.clearScreen.primaryGrid.history = [] ∧
    (clearScreenMarginProbe.clearScreen.primaryGrid.page.all
      (fun l => l.cells.all (fun c => c.codepoints.isEmpty))) = true := by
  decide

/-- C9 (amended): only with the scrolling margins at their default (the
full page) does clearScreen on the primary screen preserve content: every
page line is pushed into the scrollback history (bounded by
max_history_lines), the page becomes blank cells carrying the current
rendition, and the alternate grid and the cursor are untouched. -/
theorem clearScreen_scrolls_page_into_history (s : Screen)
    (hmain : s.screenType = ScreenType.main)
    (hmargin : s.margin = { vFrom := 1, vTo := s.height, hFrom := 1, hTo := s.width })
    (hpage : ((s.primaryGrid.page.length : Int)) = s.height)
    (hcols : s.primaryGrid.columns = s.width) :
    s.clearScreen.primaryGrid.history
        = truncHistory s.primaryGrid.maxHistory (s.primaryGrid.history ++ s.primaryGrid.page) ∧
    s.clearScreen.primaryGrid.page
        = List.replicate s.primaryGrid.page.length
            (blankLine s.primaryGrid.columns s.cursor.graphicsRendition
              s.primaryGrid.reflowEnabled) ∧
    s.clearScreen.alternateGrid = s.alternateGrid ∧
    s.clearScreen.cursor = s.cursor := by
  have hactive : s.activeGrid = s.primaryGrid := by
    simp [Screen.activeGrid, hmain]
  have hset : ∀ g, s.setActiveGrid g = { s with primaryGrid := g } := fun g => by
    simp [Screen.setActiveGrid, hmain]
  have hscroll : s.primaryGrid.scrollUp s.height s.cursor.graphicsRendition s.margin
      = { s.primaryGrid with
            history := truncHistory s.primaryGrid.maxHistory
              (s.primaryGrid.history ++ s.primaryGrid.page)
            page := List.replicate s.primaryGrid.page.length
              (blankLine s.primaryGrid.columns s.cursor.graphicsRendition
                s.primaryGrid.reflowEnabled) } := by
    simp only [Grid.scrollUp]
    rw [if_pos]
    · have hk : (min s.height ((s.primaryGrid.page.length : Int))).toNat
          = s.primaryGrid.page.length := by
        omega
      rw [hk]
      simp
    · rw [hmargin]
      exact ⟨rfl, hpage.symm, rfl, hcols.symm⟩
  simp only [Screen.clearScreen, Screen.scrollUpN, Screen.scrollUpWith, hactive, hset, hscroll]
  exact ⟨trivial, trivial, trivial, trivial⟩

/-- C9 witness: a fresh 2 by 2 primary screen with history capacity 5. -/
theorem clearScreen_scrolls_page_into_history_witness :
    (Screen.construct 2 2 (some 5) {}).screenType = ScreenType.main ∧
    ((Screen.construct 2 2 (some 5) {}).clearScreen.primaryGrid.history
        = truncHistory (Screen.construct 2 2 (some 5) {}).primaryGrid.maxHistory
            ((Screen.construct 2 2 (some 5) {}).primaryGrid.history
              ++ (Screen.construct 2 2 (some 5) {}).primaryGrid.page) ∧
     (Screen.construct 2 2 (some 5) {}).clearScreen.primaryGrid.page
        = List.replicate (Screen.construct 2 2 (some 5) {}).primaryGrid.page.length
            (blankLine (Screen.construct 2 2 (some 5) {}).primaryGrid.columns
              (Screen.construct 2 2 (some 5) {}).cursor.graphicsRendition
              (Screen.construct 2 2 (some 5) {}).primaryGrid.reflowEnabled) ∧
     (Screen.construct 2 2 (some 5) {}).clearScreen.alternateGrid
        = (Screen.construct 2 2 (some 5) {}).alternateGrid ∧
     (Screen.construct 2 2 (some 5) {}).clearScreen.cursor
        = (Screen.construct 2 2 (some 5) {}).cursor) :=
  ⟨by decide,
   clearScreen_scrolls_page_into_history (Screen.construct 2 2 (some 5) {})
     (by decide) (by decide) (by decide) (by decide)⟩

/-- C10: margin setting is atomic under strict validity checks.
setTopBottomMargin changes the vertical margins and homes the cursor (to
the origin of the now-active region) exactly when the effective top is
strictly below the effective bottom; setLeftRightMargin changes the
horizontal margins and homes the cursor exactly when DECLRMM is enabled
and the effective left + 1 is strictly below the effective right; for any
other arguments the entire Screen state is left unchanged. -/
theorem margin_setting_is_atomic (s : Screen) (t b l r : Option Int) :
    ((t.getD 1 < (match b with | some x => min x s.height | none => s.height)) →
      ((s.setTopBottomMargin t b).margin.vFrom = t.getD 1 ∧
       (s.setTopBottomMargin t b).margin.vTo
          = (match b with | some x => min x s.height | none => s.height) ∧
       (s.setTopBottomMargin t b).margin.hFrom = s.margin.hFrom ∧
       (s.setTopBottomMargin t b).margin.hTo = s.margin.hTo ∧
       (s.setTopBottomMargin t b).wrapPending = 0 ∧
       (s.setTopBottomMargin t b).cursor.row
          = clampInt (if s.cursor.originMode then t.getD 1 else 1) 1 s.height ∧
       (s.setTopBottomMargin t b).cursor.col
          = clampInt (if s.cursor.originMode then s.margin.hFrom else 1) 1 s.width ∧
       (s.setTopBottomMargin t b).modes = s.modes ∧
       (s.setTopBottomMargin t b).primaryGrid = s.primaryGrid ∧
       (s.setTopBottomMargin t b).alternateGrid = s.alternateGrid ∧
       (s.setTopBottomMargin t b).replyData = s.replyData)) ∧
    (¬ (t.getD 1 < (match b with | some x => min x s.height | none => s.height)) →
      s.setTopBottomMargin t b = s) ∧
    (s.isModeEnabled .leftRightMargin = true →
      (l.getD 1) + 1 < (match r with | some x => min x s.width | none => s.width) →
      ((s.setLeftRightMargin l r).margin.hFrom = l.getD 1 ∧
       (s.setLeftRightMargin l r).margin.hTo
          = (match r with | some x => min x s.width | none => s.width) ∧
       (s.setLeftRightMargin l r).margin.vFrom = s.margin.vFrom ∧
       (s.setLeftRightMargin l r).margin.vTo = s.margin.vTo ∧
       (s.setLeftRightMargin l r).wrapPending = 0 ∧
       (s.setLeftRightMargin l r).cursor.row
          = clampInt (if s.cursor.originMode then s.margin.vFrom else 1) 1 s.height ∧
       (s.setLeftRightMargin l r).cursor.col
          = clampInt (if s.cursor.originMode then l.getD 1 else 1) 1 s.width ∧
       (s.setLeftRightMargin l r).modes = s.modes ∧
       (s.setLeftRightMargin l r).primaryGrid = s.primaryGrid ∧
       (s.setLeftRightMargin l r).alternateGrid = s.alternateGrid ∧
       (s.setLeftRightMargin l r).replyData = s.replyData)) ∧
    (s.isModeEnabled .leftRightMargin = true →
      ¬ ((l.getD 1) + 1 < (match r with | some x => min x s.width | none => s.width)) →
      s.setLeftRightMargin l r = s) ∧
    (s.isModeEnabled .leftRightMargin = false → s.setLeftRightMargin l r = s) := by
  refine ⟨?_, ?_, ?_, ?_, ?_⟩
  · intro h
    simp only [Screen.setTopBottomMargin]
    rw [if_pos h]
    simp only [Screen.moveCursorTo, Screen.toRealCoordinate, Screen.clampToScreen]
    refine ⟨by trivial, by trivial, by trivial, by trivial, by trivial, ?_, ?_, by trivial, by trivial, by trivial, by trivial⟩
    · by_cases ho : s.cursor.originMode = true
      · simp only [ho, if_true]
        show clampInt (1 + t.getD 1 - 1) 1 s.height = clampInt (t.getD 1) 1 s.height
        congr 1
        omega
      · simp only [Bool.not_eq_true] at ho
        simp [ho]
    · by_cases ho : s.cursor.originMode = true
      · simp only [ho, if_true]
        show clampInt (1 + s.margin.hFrom - 1) 1 s.width = clampInt s.margin.hFrom 1 s.width
        congr 1
        omega
      · simp only [Bool.not_eq_true] at ho
        simp [ho]
  · intro h
    simp only [Screen.setTopBottomMargin]
    rw [if_neg h]
  · intro hlr h
    simp only [Screen.setLeftRightMargin]
    rw [if_pos hlr, if_pos h]
    simp only [Screen.moveCursorTo, Screen.toRealCoordinate, Screen.clampToScreen]
    refine ⟨by trivial, by trivial, by trivial, by trivial, by trivial, ?_, ?_, by trivial, by trivial, by trivial, by trivial⟩
    · by_cases ho : s.cursor.originMode = true
      · simp only [ho, if_true]
        show clampInt (1 + s.margin.vFrom - 1) 1 s.height = clampInt s.margin.vFrom 1 s.height
        congr 1
        omega
      · simp only [Bool.not_eq_true] at ho
        simp [ho]
    · by_cases ho : s.cursor.originMode = true
      · simp only [ho, if_true]
        show clampInt (1 + l.getD 1 - 1) 1 s.width = clampInt (l.getD 1) 1 s.width
        congr 1
        omega
      · simp only [Bool.not_eq_true] at ho
        simp [ho]
  · intro hlr h
    simp only [Screen.setLeftRightMargin]
    rw [if_pos hlr, if_neg h]
  · intro hlr
    simp only [Screen.setLeftRightMargin]
    rw [if_neg]
    simp [hlr]

/-- C10 witness: a fresh 6 by 6 screen with DECLRMM enabled; DECSTBM 2..4
is applied (valid) and DECSLRM with a two-column request 3..4 is rejected,
leaving the state unchanged. -/
theorem margin_setting_is_atomic_witness :
    ((2 : Int) < 4 ∧
     (((Screen.construct 6 6 none {}).setMode .leftRightMargin true).setTopBottomMargin
        (some 2) (some 4)).margin.vFrom = 2) ∧
    (((Screen.construct 6 6 none {}).setMode .leftRightMargin true).isModeEnabled
        .leftRightMargin = true ∧
     ¬ ((3 : Int) + 1 < 4) ∧
     ((Screen.construct 6 6 none {}).setMode .leftRightMargin true).setLeftRightMargin
        (some 3) (some 4)
       = (Screen.construct 6 6 none {}).setMode .leftRightMargin true) :=
  ⟨⟨by decide,
    ((margin_setting_is_atomic ((Screen.construct 6 6 none {}).setMode .leftRightMargin true)
        (some 2) (some 4) (some 3) (some 4)).1 (by decide)).1⟩,
   ⟨by decide, by decide,
    (margin_setting_is_atomic ((Screen.construct 6 6 none {}).setMode .leftRightMargin true)
        (some 2) (some 4) (some 3) (some 4)).2.2.2.1 (by decide) (by decide)⟩⟩

/-! Step-level characterizations of the operations used by resetSoft and
resetHard. -/

/-- ANSI bit updates do not affect DEC mode bits. -/
@[simp] theorem Modes.decEnabled_setAnsi (m : Modes) (num num2 : Int) (e : Bool) :
    (m.setAnsi num e).decEnabled num2 = m.decEnabled num2 := by
  unfold Modes.setAnsi
  split <;> rfl

/-- DEC bit updates do not affect ANSI mode bits. -/
@[simp] theorem Modes.ansiEnabled_setDec (m : Modes) (num num2 : Int) (e : Bool) :
    (m.setDec num e).ansiEnabled num2 = m.ansiEnabled num2 := by
  unfold Modes.setDec
  split <;> rfl

/-- ANSI bit read-after-write. -/
@[simp] theorem Modes.ansiEnabled_setAnsi_self (m : Modes) (num : Int) (e : Bool) :
    (m.setAnsi num e).ansiEnabled num = e := by
  cases e <;> simp [Modes.setAnsi, Modes.ansiEnabled]
  split <;> simp_all

/-- ANSI bits of other modes survive a bit update. -/
theorem Modes.ansiEnabled_setAnsi_ne (m : Modes) (num num2 : Int) (e : Bool)
    (h : num2 ≠ num) : (m.setAnsi num e).ansiEnabled num2 = m.ansiEnabled num2 := by
  cases e <;> simp [Modes.setAnsi, Modes.ansiEnabled]
  · simp [List.mem_filter, h]
  · split <;> simp [h]

/-- setMode on BatchedRendering only records the bit. -/
@[simp] theorem Screen.setMode_batchedRendering_eq (x : Screen) (e : Bool) :
    x.setMode .batchedRendering e = { x with modes := x.modes.setDec 2026 e } := rfl

/-- setMode on VisibleCursor caches the flag and records the bit. -/
@[simp] theorem Screen.setMode_visibleCursor_eq (x : Screen) (e : Bool) :
    x.setMode .visibleCursor e =
      { x with cursor := { x.cursor with visible := e }, modes := x.modes.setDec 25 e } := rfl

/-- setMode on Origin caches the flag and records the bit. -/
@[simp] theorem Screen.setMode_origin_eq (x : Screen) (e : Bool) :
    x.setMode .origin e =
      { x with cursor := { x.cursor with originMode := e }, modes := x.modes.setDec 6 e } := rfl

/-- setMode on AutoWrap caches the flag and records the bit. -/
@[simp] theorem Screen.setMode_autoWrap_eq (x : Screen) (e : Bool) :
    x.setMode .autoWrap e =
      { x with cursor := { x.cursor with autoWrap := e }, modes := x.modes.setDec 7 e } := rfl

/-- setMode on UseApplicationCursorKeys only records the bit (the event
side effect is outside the model). -/
@[simp] theorem Screen.setMode_useApplicationCursorKeys_eq (x : Screen) (e : Bool) :
    x.setMode .useApplicationCursorKeys e = { x with modes := x.modes.setDec 1 e } := rfl

/-- ANSI setMode only records the bit. -/
@[simp] theorem Screen.setAnsiMode_eq (x : Screen) (m : AnsiMode) (e : Bool) :
    x.setAnsiMode m e = { x with modes := x.modes.setAnsi (toAnsiModeNum m) e } := by
  cases m <;> rfl

/-- SGR reset clears the current rendition. -/
@[simp] theorem Screen.setGraphicsRendition_reset_eq (x : Screen) :
    x.setGraphicsRendition .reset =
      { x with cursor := { x.cursor with graphicsRendition := {} } } := rfl

/-- setMode on TextReflow changes only the primary grid (wrappable flags)
and the mode bit; the history capacity of the primary grid is
preserved. -/
theorem Screen.setMode_textReflow_exists (x : Screen) (e : Bool) :
    ∃ g, x.setMode .textReflow e
        = { x with primaryGrid := g, modes := x.modes.setDec 2027 e } ∧
      g.maxHistory = x.primaryGrid.maxHistory := by
  have hm : x.setMode .textReflow e = x.setModeSimple .textReflow e := rfl
  rw [hm]
  simp only [Screen.setModeSimple, Screen.setModeBit]
  rw [if_pos (isValidDECMode_toDECModeNum DECMode.textReflow)]
  split
  · split
    · exact ⟨_, rfl, rfl⟩
    · exact ⟨_, rfl, rfl⟩
  · exact ⟨_, rfl, rfl⟩

/-- Projections through setMode TextReflow. -/
@[simp] theorem Screen.setMode_textReflow_modes (x : Screen) (e : Bool) :
    (x.setMode .textReflow e).modes = x.modes.setDec 2027 e := by
  obtain ⟨g, hg, _⟩ := Screen.setMode_textReflow_exists x e
  rw [hg]

/-- Cursor projection through setMode TextReflow. -/
@[simp] theorem Screen.setMode_textReflow_cursor (x : Screen) (e : Bool) :
    (x.setMode .textReflow e).cursor = x.cursor := by
  obtain ⟨g, hg, _⟩ := Screen.setMode_textReflow_exists x e
  rw [hg]

/-- Margin projection through setMode TextReflow. -/
@[simp] theorem Screen.setMode_textReflow_margin (x : Screen) (e : Bool) :
    (x.setMode .textReflow e).margin = x.margin := by
  obtain ⟨g, hg, _⟩ := Screen.setMode_textReflow_exists x e
  rw [hg]

/-- Width projection through setMode TextReflow. -/
@[simp] theorem Screen.setMode_textReflow_width (x : Screen) (e : Bool) :
    (x.setMode .textReflow e).width = x.width := by
  obtain ⟨g, hg, _⟩ := Screen.setMode_textReflow_exists x e
  rw [hg]

/-- Height projection through setMode TextReflow. -/
@[simp] theorem Screen.setMode_textReflow_height (x : Screen) (e : Bool) :
    (x.setMode .textReflow e).height = x.height := by
  obtain ⟨g, hg, _⟩ := Screen.setMode_textReflow_exists x e
  rw [hg]

/-- Hyperlink projection through setMode TextReflow. -/
@[simp] theorem Screen.setMode_textReflow_currentHyperlink (x : Screen) (e : Bool) :
    (x.setMode .textReflow e).currentHyperlink = x.currentHyperlink := by
  obtain ⟨g, hg, _⟩ := Screen.setMode_textReflow_exists x e
  rw [hg]

/-- Palette projection through setMode TextReflow. -/
@[simp] theorem Screen.setMode_textReflow_colorPalette (x : Screen) (e : Bool) :
    (x.setMode .textReflow e).colorPalette = x.colorPalette := by
  obtain ⟨g, hg, _⟩ := Screen.setMode_textReflow_exists x e
  rw [hg]

/-- Default-palette projection through setMode TextReflow. -/
@[simp] theorem Screen.setMode_textReflow_defaultColorPalette (x : Screen) (e : Bool) :
    (x.setMode .textReflow e).defaultColorPalette = x.defaultColorPalette := by
  obtain ⟨g, hg, _⟩ := Screen.setMode_textReflow_exists x e
  rw [hg]

/-- Saved-cursor projection through setMode TextReflow. -/
@[simp] theorem Screen.setMode_textReflow_savedCursor (x : Screen) (e : Bool) :
    (x.setMode .textReflow e).savedCursor = x.savedCursor := by
  obtain ⟨g, hg, _⟩ := Screen.setMode_textReflow_exists x e
  rw [hg]

/-- Wrap-pending projection through setMode TextReflow. -/
@[simp] theorem Screen.setMode_textReflow_wrapPending (x : Screen) (e : Bool) :
    (x.setMode .textReflow e).wrapPending = x.wrapPending := by
  obtain ⟨g, hg, _⟩ := Screen.setMode_textReflow_exists x e
  rw [hg]

/-- Buffer-type projection through setMode TextReflow. -/
@[simp] theorem Screen.setMode_textReflow_screenType (x : Screen) (e : Bool) :
    (x.setMode .textReflow e).screenType = x.screenType := by
  obtain ⟨g, hg, _⟩ := Screen.setMode_textReflow_exists x e
  rw [hg]

/-- Alternate-grid projection through setMode TextReflow. -/
@[simp] theorem Screen.setMode_textReflow_alternateGrid (x : Screen) (e : Bool) :
    (x.setMode .textReflow e).alternateGrid = x.alternateGrid := by
  obtain ⟨g, hg, _⟩ := Screen.setMode_textReflow_exists x e
  rw [hg]

/-- Tabs projection through setMode TextReflow. -/
@[simp] theorem Screen.setMode_textReflow_tabs (x : Screen) (e : Bool) :
    (x.setMode .textReflow e).tabs = x.tabs := by
  obtain ⟨g, hg, _⟩ := Screen.setMode_textReflow_exists x e
  rw [hg]

/-- History-capacity projection through setMode TextReflow. -/
@[simp] theorem Screen.setMode_textReflow_maxHistory (x : Screen) (e : Bool) :
    (x.setMode .textReflow e).primaryGrid.maxHistory = x.primaryGrid.maxHistory := by
  obtain ⟨g, hg, hmax⟩ := Screen.setMode_textReflow_exists x e
  rw [hg]
  exact hmax

/-- setBuffer is the plain buffer-type update. -/
@[simp] theorem Screen.setBuffer_eq (x : Screen) (tp : ScreenType) :
    x.setBuffer tp = { x with screenType := tp } := by
  unfold Screen.setBuffer
  split
  · rfl
  · rename_i h
    simp only [ne_eq, Decidable.not_not] at h
    rw [← h]

/-- moveCursorTo (1, 1) with origin mode off homes the cursor. -/
theorem Screen.moveCursorTo_home_eq (x : Screen) (ho : x.cursor.originMode = false) :
    x.moveCursorTo 1 1
      = { x with wrapPending := 0, cursor := { x.cursor with row := 1, col := 1 } } := by
  have h1 : max 1 (min 1 x.height) = (1 : Int) := by omega
  have h2 : max 1 (min 1 x.width) = (1 : Int) := by omega
  simp [Screen.moveCursorTo, Screen.toRealCoordinate, Screen.clampToScreen, clampInt,
    ho, h1, h2]

/-- Margin after DECSTBM 1..v, as an unconditional equation. -/
@[simp] theorem Screen.setTopBottomMargin_margin_proj (x : Screen) (v : Int) :
    (x.setTopBottomMargin (some 1) (some v)).margin
      = if 1 < min v x.height then { x.margin with vFrom := 1, vTo := min v x.height }
        else x.margin := by
  simp only [Screen.setTopBottomMargin, Option.getD_some]
  split
  · rfl
  · rfl

/-- The cursor flags, dimensions, modes, hyperlink and palettes survive
DECSTBM. -/
@[simp] theorem Screen.setTopBottomMargin_cursor_flags (x : Screen) (t b : Option Int) :
    ((x.setTopBottomMargin t b).cursor.originMode = x.cursor.originMode) ∧
    ((x.setTopBottomMargin t b).cursor.autoWrap = x.cursor.autoWrap) ∧
    ((x.setTopBottomMargin t b).cursor.visible = x.cursor.visible) ∧
    ((x.setTopBottomMargin t b).cursor.graphicsRendition = x.cursor.graphicsRendition) ∧
    ((x.setTopBottomMargin t b).width = x.width) ∧
    ((x.setTopBottomMargin t b).height = x.height) ∧
    ((x.setTopBottomMargin t b).currentHyperlink = x.currentHyperlink) ∧
    ((x.setTopBottomMargin t b).colorPalette = x.colorPalette) ∧
    ((x.setTopBottomMargin t b).defaultColorPalette = x.defaultColorPalette) := by
  simp only [Screen.setTopBottomMargin]
  repeat' split
  all_goals simp [Screen.moveCursorTo]

/-- Margin after DECSLRM 1..v, as an unconditional equation. -/
@[simp] theorem Screen.setLeftRightMargin_margin_proj (x : Screen) (v : Int) :
    (x.setLeftRightMargin (some 1) (some v)).margin
      = if x.isModeEnabled .leftRightMargin = true then
          (if 1 + 1 < min v x.width then { x.margin with hFrom := 1, hTo := min v x.width }
           else x.margin)
        else x.margin := by
  simp only [Screen.setLeftRightMargin, Option.getD_some]
  split
  · split
    · rfl
    · rfl
  · rfl

/-- The cursor flags, dimensions, modes, hyperlink and palettes survive
DECSLRM. -/
@[simp] theorem Screen.setLeftRightMargin_cursor_flags (x : Screen) (l r : Option Int) :
    ((x.setLeftRightMargin l r).cursor.originMode = x.cursor.originMode) ∧
    ((x.setLeftRightMargin l r).cursor.autoWrap = x.cursor.autoWrap) ∧
    ((x.setLeftRightMargin l r).cursor.visible = x.cursor.visible) ∧
    ((x.setLeftRightMargin l r).cursor.graphicsRendition = x.cursor.graphicsRendition) ∧
    ((x.setLeftRightMargin l r).width = x.width) ∧
    ((x.setLeftRightMargin l r).height = x.height) ∧
    ((x.setLeftRightMargin l r).currentHyperlink = x.currentHyperlink) ∧
    ((x.setLeftRightMargin l r).colorPalette = x.colorPalette) ∧
    ((x.setLeftRightMargin l r).defaultColorPalette = x.defaultColorPalette) := by
  simp only [Screen.setLeftRightMargin]
  repeat' split
  all_goals simp [Screen.moveCursorTo]

/-- C2 counterexample: a freshly constructed screen has auto-wrap enabled,
and resetSoft turns it off (the source follows the DECSTR document),
refuting the claim that after a soft reset auto-wrap mode (DECAWM) is
on. -/
theorem resetSoft_autoWrap_counterexample :
    (Screen.construct 4 4 none {}).cursor.autoWrap = true ∧
    (Screen.construct 4 4 none {}).resetSoft.cursor.autoWrap = false ∧
    (Screen.construct 4 4 none {}).resetSoft.isModeEnabled .autoWrap = false := by
  decide

/-- C2 (amended): after resetSoft the current SGR is reset to defaults,
auto-wrap mode (DECAWM) is OFF, origin mode is off, insert mode is off,
keyboard-action mode is off, cursor-keys mode is off, the scrolling
margins equal the full page, the text cursor is visible, the current
hyperlink is cleared and the color palette is restored to its default. -/
theorem resetSoft_spec (s : Screen)
    (hh : 2 ≤ s.height)
    (hw : s.isModeEnabled .leftRightMargin = true → 3 ≤ s.width)
    (hm : s.isModeEnabled .leftRightMargin = false →
          s.margin.hFrom = 1 ∧ s.margin.hTo = s.width) :
    s.resetSoft.cursor.graphicsRendition = {} ∧
    s.resetSoft.cursor.autoWrap = false ∧
    s.resetSoft.isModeEnabled .autoWrap = false ∧
    s.resetSoft.cursor.originMode = false ∧
    s.resetSoft.isModeEnabled .origin = false ∧
    s.resetSoft.isAnsiModeEnabled .insert = false ∧
    s.resetSoft.isAnsiModeEnabled .keyboardAction = false ∧
    s.resetSoft.isModeEnabled .useApplicationCursorKeys = false ∧
    s.resetSoft.margin = { vFrom := 1, vTo := s.height, hFrom := 1, hTo := s.width } ∧
    s.resetSoft.cursor.visible = true ∧
    s.resetSoft.isModeEnabled .visibleCursor = true ∧
    s.resetSoft.currentHyperlink = none ∧
    s.resetSoft.colorPalette = s.defaultColorPalette := by
  have hpos : (1 : Int) < s.height := by omega
  refine ⟨?_, ?_, ?_, ?_, ?_, ?_, ?_, ?_, ?_, ?_, ?_, ?_, ?_⟩
  case refine_9 =>
    by_cases hlr : s.isModeEnabled .leftRightMargin = true
    · have hw3 : (1 : Int) + 1 < s.width := by
        have := hw hlr
        omega
      simp only [Screen.isModeEnabled, toDECModeNum] at hlr
      simp [Screen.resetSoft, Screen.isModeEnabled, toDECModeNum,
        Modes.decEnabled_setDec_ne, hpos, hw3, hlr]
      exact fun hcontra => absurd hw3 (by omega)
    · have hlr2 : s.isModeEnabled .leftRightMargin = false := by
        simpa using hlr
      obtain ⟨hm1, hm2⟩ := hm hlr2
      simp only [Screen.isModeEnabled, toDECModeNum] at hlr2
      simp [Screen.resetSoft, Screen.isModeEnabled, toDECModeNum,
        Modes.decEnabled_setDec_ne, hpos, hlr2, hm1, hm2]
  all_goals
    simp [Screen.resetSoft, Screen.isModeEnabled, Screen.isAnsiModeEnabled,
      toDECModeNum, toAnsiModeNum, Modes.decEnabled_setDec_ne, Modes.ansiEnabled_setAnsi_ne]

/-- C2 witness: a fresh 4 by 4 screen (DECLRMM off, margins at the full
page). -/
theorem resetSoft_spec_witness :
    2 ≤ (Screen.construct 4 4 none {}).height ∧
    ((Screen.construct 4 4 none {}).resetSoft.cursor.graphicsRendition = {} ∧
     (Screen.construct 4 4 none {}).resetSoft.cursor.autoWrap = false ∧
     (Screen.construct 4 4 none {}).resetSoft.isModeEnabled .autoWrap = false ∧
     (Screen.construct 4 4 none {}).resetSoft.cursor.originMode = false ∧
     (Screen.construct 4 4 none {}).resetSoft.isModeEnabled .origin = false ∧
     (Screen.construct 4 4 none {}).resetSoft.isAnsiModeEnabled .insert = false ∧
     (Screen.construct 4 4 none {}).resetSoft.isAnsiModeEnabled .keyboardAction = false ∧
     (Screen.construct 4 4 none {}).resetSoft.isModeEnabled .useApplicationCursorKeys = false ∧
     (Screen.construct 4 4 none {}).resetSoft.margin
        = { vFrom := 1, vTo := (Screen.construct 4 4 none {}).height,
            hFrom := 1, hTo := (Screen.construct 4 4 none {}).width } ∧
     (Screen.construct 4 4 none {}).resetSoft.cursor.visible = true ∧
     (Screen.construct 4 4 none {}).resetSoft.isModeEnabled .visibleCursor = true ∧
     (Screen.construct 4 4 none {}).resetSoft.currentHyperlink = none ∧
     (Screen.construct 4 4 none {}).resetSoft.colorPalette
        = (Screen.construct 4 4 none {}).defaultColorPalette) :=
  ⟨by decide,
   resetSoft_spec (Screen.construct 4 4 none {}) (by decide) (by decide) (by decide)⟩

/-- History capacity of a fresh grid. -/
@[simp] theorem emptyGrid_maxHistory (w h : Int) (r : Bool) (c : Option Int) :
    (emptyGrid w h r c).maxHistory = c := rfl

/-- C5 counterexample: a screen whose current SGR was set to bold keeps the
bold rendition through resetHard, while a freshly constructed screen of
the same page size and history capacity has the default rendition; the
observable state after reset_hard is therefore not identical to a fresh
construction. -/
theorem resetHard_not_fresh_counterexample :
    ((Screen.construct 3 3 none {}).setGraphicsRendition .bold).resetHard.cursor.graphicsRendition
      ≠ (Screen.construct 3 3 none {}).cursor.graphicsRendition := by
  decide

/-- C5 (amended): when the origin-mode flag is off, the state after
resetHard agrees with a freshly constructed Screen of the same page size,
history capacity and default palette on the grids and their contents, the
buffer type, the mode bits, the tab stops, the margins, the wrap-pending
flag, the cursor position, the auto-wrap flag, the current hyperlink and
the color palette (restored to the default); the cursor rendition and
charsets, the saved cursors, the window-title stack, the hyperlink
registry and the image pool are left unchanged rather than
reconstructed. -/
theorem resetHard_matches_fresh_construction (s : Screen)
    (ho : s.cursor.originMode = false) :
    s.resetHard.primaryGrid = (freshOf s).primaryGrid ∧
    s.resetHard.alternateGrid = (freshOf s).alternateGrid ∧
    s.resetHard.screenType = (freshOf s).screenType ∧
    s.resetHard.modes = (freshOf s).modes ∧
    s.resetHard.tabs = (freshOf s).tabs ∧
    s.resetHard.margin = (freshOf s).margin ∧
    s.resetHard.wrapPending = (freshOf s).wrapPending ∧
    s.resetHard.cursor.row = (freshOf s).cursor.row ∧
    s.resetHard.cursor.col = (freshOf s).cursor.col ∧
    s.resetHard.cursor.autoWrap = (freshOf s).cursor.autoWrap ∧
    s.resetHard.currentHyperlink = (freshOf s).currentHyperlink ∧
    s.resetHard.colorPalette = (freshOf s).colorPalette ∧
    s.resetHard.colorPalette = s.defaultColorPalette := by
  refine ⟨?_, ?_, ?_, ?_, ?_, ?_, ?_, ?_, ?_, ?_, ?_, ?_, ?_⟩ <;>
    simp [Screen.resetHard, freshOf, Screen.construct, Screen.moveCursorTo_home_eq, ho]

/-- C5 witness: a fresh 4 by 3 screen with history capacity 7 (origin mode
off). -/
theorem resetHard_matches_fresh_construction_witness :
    (Screen.construct 4 3 (some 7) {}).cursor.originMode = false ∧
    ((Screen.construct 4 3 (some 7) {}).resetHard.primaryGrid
        = (freshOf (Screen.construct 4 3 (some 7) {})).primaryGrid ∧
     (Screen.construct 4 3 (some 7) {}).resetHard.alternateGrid
        = (freshOf (Screen.construct 4 3 (some 7) {})).alternateGrid ∧
     (Screen.construct 4 3 (some 7) {}).resetHard.screenType
        = (freshOf (Screen.construct 4 3 (some 7) {})).screenType ∧
     (Screen.construct 4 3 (some 7) {}).resetHard.modes
        = (freshOf (Screen.construct 4 3 (some 7) {})).modes ∧
     (Screen.construct 4 3 (some 7) {}).resetHard.tabs
        = (freshOf (Screen.construct 4 3 (some 7) {})).tabs ∧
     (Screen.construct 4 3 (some 7) {}).resetHard.margin
        = (freshOf (Screen.construct 4 3 (some 7) {})).margin ∧
     (Screen.construct 4 3 (some 7) {}).resetHard.wrapPending
        = (freshOf (Screen.construct 4 3 (some 7) {})).wrapPending ∧
     (Screen.construct 4 3 (some 7) {}).resetHard.cursor.row
        = (freshOf (Screen.construct 4 3 (some 7) {})).cursor.row ∧
     (Screen.construct 4 3 (some 7) {}).resetHard.cursor.col
        = (freshOf (Screen.construct 4 3 (some 7) {})).cursor.col ∧
     (Screen.construct 4 3 (some 7) {}).resetHard.cursor.autoWrap
        = (freshOf (Screen.construct 4 3 (some 7) {})).cursor.autoWrap ∧
     (Screen.construct 4 3 (some 7) {}).resetHard.currentHyperlink
        = (freshOf (Screen.construct 4 3 (some 7) {})).currentHyperlink ∧
     (Screen.construct 4 3 (some 7) {}).resetHard.colorPalette
        = (freshOf (Screen.construct 4 3 (some 7) {})).colorPalette ∧
     (Screen.construct 4 3 (some 7) {}).resetHard.colorPalette
        = (Screen.construct 4 3 (some 7) {}).defaultColorPalette) :=
  ⟨by decide,
   resetHard_matches_fresh_construction (Screen.construct 4 3 (some 7) {}) (by decide)⟩

end Contour
